import Mathlib

/-!
Shallow embedding of the deterministic medical risk-scoring engine of
`backend/app/services/medical_algorithms.py`: the `RiskFactors` normalizer,
the Framingham cardiovascular calculator, the ADA diabetes calculator, the
cancer calculator, the life-expectancy calculator, the composite health
scorer and the assessment orchestrator.  Python floats are modelled as exact
rationals wherever the source only adds, multiplies, compares and clamps, and
as real numbers where the source uses `math.exp` and a real power.  Code that
can raise (the normalizer's `float()` / `int()` conversions, `.lower()` on
non-strings, division by zero) is modelled in the `Option` monad, with `none`
standing for a raised exception.
-/

set_option maxRecDepth 4000
set_option linter.unusedVariables false

/-- Truncation toward zero, as Python's `int(...)` applied to a rational. -/
def truncQ (q : ℚ) : ℤ := if 0 ≤ q then ⌊q⌋ else ⌈q⌉

/-- Truncation toward zero on the reals, as Python's `int(...)` applied to a
float-valued expression. -/
noncomputable def truncR (x : ℝ) : ℤ := if 0 ≤ x then ⌊x⌋ else ⌈x⌉

/-- Python's `round(..., 0)` on a scaled value: round half to even. -/
noncomputable def roundHalfEvenR (x : ℝ) : ℤ :=
  if x - ⌊x⌋ < 1/2 then ⌊x⌋
  else if 1/2 < x - ⌊x⌋ then ⌊x⌋ + 1
  else if Even ⌊x⌋ then ⌊x⌋ else ⌊x⌋ + 1

/-- Python's `round(x, 1)`: one decimal digit, half to even. -/
noncomputable def pyRound1 (x : ℝ) : ℝ := (roundHalfEvenR (10 * x) : ℝ) / 10

/-- Round half to even on rationals (Python float formatting `:.0f`). -/
def roundHalfEvenQ (q : ℚ) : ℤ :=
  if q - ⌊q⌋ < 1/2 then ⌊q⌋
  else if 1/2 < q - ⌊q⌋ then ⌊q⌋ + 1
  else if Even ⌊q⌋ then ⌊q⌋ else ⌊q⌋ + 1

/-- Python string formatting `:.0f` of a rational value. -/
def format0f (q : ℚ) : String := toString (roundHalfEvenQ q)

/-- Python string formatting `:.1f` of a rational value. -/
def format1f (q : ℚ) : String :=
  let n := roundHalfEvenQ (10 * q)
  let sign := if n < 0 then "-" else ""
  let m := n.natAbs
  sign ++ toString (m / 10) ++ "." ++ toString (m % 10)

/-- ASCII lower-casing of one character (Python `str.lower` on the ASCII
strings this engine handles). -/
def lowerChar (c : Char) : Char :=
  if 'A' ≤ c ∧ c ≤ 'Z' then Char.ofNat (c.toNat + 32) else c

/-- Python's `s.lower()`. -/
def strLower (s : String) : String := String.mk (s.data.map lowerChar)

/-- Python's `s.replace(' ', '_')`: the pattern is one character, so the
replacement is a character map. -/
def replaceSpace (s : String) : String :=
  String.mk (s.data.map (fun c => if c = ' ' then '_' else c))

/-- Strip leading and trailing blanks (Python's `str.strip` as `float`/`int`
apply it). -/
def trimChars (cs : List Char) : List Char :=
  ((cs.dropWhile Char.isWhitespace).reverse.dropWhile Char.isWhitespace).reverse

/-- Split a character list on a separator character (`str.split` semantics
as `splitOn` has them). -/
def splitOnChar (c : Char) (cs : List Char) : List (List Char) :=
  cs.foldr
    (fun x acc =>
      if x = c then [] :: acc
      else
        match acc with
        | h :: t => (x :: h) :: t
        | [] => [[x]])
    [[]]

/-- Character-list prefix test (used to model Python substring search). -/
def isPre : List Char → List Char → Bool
  | [], _ => true
  | _ :: _, [] => false
  | a :: as, b :: bs => a == b && isPre as bs

/-- Character-list substring test: Python's `pat in hay`. -/
def subLst (pat : List Char) : List Char → Bool
  | [] => pat.isEmpty
  | b :: bs => isPre pat (b :: bs) || subLst pat bs

/-- Python's `pat in hay` on strings (case-sensitive containment). -/
def containsSub (hay pat : String) : Bool := subLst pat.data hay.data

/-- The single-quote character used by Python's `repr` of a string. -/
def quoteChar : Char := Char.ofNat 39

/-- The characters of Python's `repr` of one string inside `str(list)`. -/
def quoteData (s : String) : List Char := quoteChar :: (s.data ++ [quoteChar])

/-- The characters between the brackets of Python's `str` of a string list. -/
def joinData : List String → List Char
  | [] => []
  | [a] => quoteData a
  | a :: b :: t => quoteData a ++ (',' :: ' ' :: joinData (b :: t))

/-- The characters of Python's `str` applied to a list of strings. -/
def pyStrData (l : List String) : List Char := '[' :: (joinData l ++ [']'])

/-- First-seen-order deduplication with an accumulator: the source's
`for rec in ...: if rec not in all: all.append(rec)` loop. -/
def dedupAcc : List String → List String → List String
  | acc, [] => acc
  | acc, r :: t => if r ∈ acc then dedupAcc acc t else dedupAcc (acc ++ [r]) t

/-- First-seen-order deduplication of a list of strings. -/
def dedupSeq (l : List String) : List String := dedupAcc [] l

/-- Values a loosely-typed user-attributes mapping can hold: the Python types
the normalizer actually receives (strings, ints, floats, lists, `None`). -/
inductive PyVal where
  | vstr (s : String)
  | vint (n : ℤ)
  | vfloat (q : ℚ)
  | vlist (xs : List PyVal)
  | vnone

/-- A raw user-attributes mapping: association list standing for the Python
dict handed to `_convert_to_risk_factors`. -/
def UserData := List (String × PyVal)

/-- Dict lookup: `user_data.get(k)` (a missing key yields `none`). -/
def lookupKey (ud : UserData) (k : String) : Option PyVal :=
  match ud.find? (fun p => p.1 == k) with
  | some p => some p.2
  | none => none

/-- Python truthiness of a value. -/
def pyTruthy : PyVal → Bool
  | .vstr s => !s.isEmpty
  | .vint n => n != 0
  | .vfloat q => q != 0
  | .vlist xs => !xs.isEmpty
  | .vnone => false

/-- Truthiness of `user_data.get(k)` (absent is falsy, like `None`). -/
def optTruthy (o : Option PyVal) : Bool :=
  match o with
  | some v => pyTruthy v
  | none => false

/-- Value of a nonempty all-digit character list. -/
def digitsVal (cs : List Char) : Option ℕ :=
  if cs.isEmpty then none
  else
    cs.foldl
      (fun acc c =>
        match acc with
        | none => none
        | some n => if c.isDigit then some (n * 10 + (c.toNat - 48)) else none)
      (some 0)

/-- Unsigned decimal numeral, optionally with a fractional part (the core
grammar accepted by Python's `float(...)` on a string). -/
def parseUnsignedQ (cs : List Char) : Option ℚ :=
  match splitOnChar '.' cs with
  | [a] => (digitsVal a).map (fun n => (n : ℚ))
  | [a, b] =>
    match digitsVal a, digitsVal b with
    | some x, some y => some ((x : ℚ) + (y : ℚ) / (10 : ℚ) ^ b.length)
    | _, _ => none
  | _ => none

/-- Python's `float(s)` on a string: strip blanks, optional sign, decimal
numeral; `none` models the `ValueError` raised on anything else. -/
def parseFloatQ (s : String) : Option ℚ :=
  match trimChars s.data with
  | '-' :: rest => (parseUnsignedQ rest).map (fun q => -q)
  | '+' :: rest => parseUnsignedQ rest
  | t => parseUnsignedQ t

/-- Python's `int(s)` on a string: only an integer numeral is accepted. -/
def parseIntQ (s : String) : Option ℤ :=
  match trimChars s.data with
  | '-' :: rest => (digitsVal rest).map (fun n => -(n : ℤ))
  | '+' :: rest => (digitsVal rest).map (fun n => (n : ℤ))
  | ds => (digitsVal ds).map (fun n => (n : ℤ))

/-- Python's `float(v)`: `none` models the exception raised on lists and
`None`, and on unparsable strings. -/
def pyFloat : PyVal → Option ℚ
  | .vint n => some (n : ℚ)
  | .vfloat q => some q
  | .vstr s => parseFloatQ s
  | _ => none

/-- Python's `int(v)`: floats truncate toward zero; `none` models the
exception raised on lists, `None` and non-numeral strings. -/
def pyInt : PyVal → Option ℤ
  | .vint n => some n
  | .vfloat q => some (truncQ q)
  | .vstr s => parseIntQ s
  | _ => none

/-- Biological sex as the engine's calibration tables key it.  The source
keeps a lowered string and indexes fixed dicts with it; every constructed
`RiskFactors` (and the spec's data model) restricts it to these two values,
which the coefficient lookups require. -/
inductive Sex where
  | male
  | female
  deriving DecidableEq

/-- Container for standardized risk factors (`RiskFactors` dataclass). -/
structure RiskFactors where
  age : ℤ
  sex : Sex
  ethnicity : String
  bmi : ℚ
  systolic_bp : Option ℚ := none
  total_cholesterol : Option ℚ := none
  hdl_cholesterol : Option ℚ := none
  smoking : Bool := false
  diabetes : Bool := false
  family_history_cvd : Bool := false
  family_history_diabetes : Bool := false
  family_history_cancer : Bool := false
  exercise_frequency : String := "moderate"
  alcohol_consumption : String := "moderate"

/-- Standardized risk assessment result (`RiskResult` dataclass). -/
structure RiskResult where
  disease : String
  ten_year_risk : ℝ
  risk_category : String
  confidence : ℚ
  algorithm_used : String
  key_risk_factors : List String
  recommendations : List String
  population_percentile : Option ℤ := none

/-- Lower-case, then replace blanks by underscores: the ethnicity key used by
the lookup tables. -/
def ethnicityKey (ethnicity : String) : String :=
  replaceSpace (strLower ethnicity)

namespace ADADiabetesRiskCalculator

/-- Fixed set of higher-risk ethnicities (`_get_ethnicity_risk`). -/
def high_risk_ethnicities : List String :=
  ["african_american", "hispanic", "native_american", "asian", "pacific_islander"]

/-- Ethnicity-based point score (`_get_ethnicity_risk`). -/
def ethnicity_risk (ethnicity : String) : ℕ :=
  if ethnicityKey ethnicity ∈ high_risk_ethnicities then 2 else 0

/-- Integer point score accumulated in `calculate_risk`. -/
def risk_score (f : RiskFactors) : ℕ :=
  (if 65 ≤ f.age then 3 else if 45 ≤ f.age then 2 else if 35 ≤ f.age then 1 else 0)
  + (if 35 ≤ f.bmi then 3 else if 30 ≤ f.bmi then 2 else if 25 ≤ f.bmi then 1 else 0)
  + (if f.family_history_diabetes then 3 else 0)
  + ethnicity_risk f.ethnicity
  + (if f.exercise_frequency = "none" then 2
     else if f.exercise_frequency = "light" then 1 else 0)
  + (if f.smoking then 1 else 0)
  + (match f.systolic_bp with
     | some bp => if bp ≠ 0 ∧ 140 < bp then 1 else 0
     | none => 0)

/-- Validated risk-score lookup table of `_score_to_percentage`: entry `i`
is the percentage for point score `i`. -/
def risk_table : List ℚ :=
  [1, 2, 3, 5, 8, 12, 18, 25, 33, 42, 52, 62, 72, 80, 85]

/-- Convert a point score to a 10-year percentage risk
(`_score_to_percentage`): table lookup capped at score 14, default 85, a
+10% multiplicative male adjustment, clamp at 90. -/
def score_to_percentage (score : ℕ) (sex : Sex) : ℚ :=
  min
    (if sex = Sex.male then risk_table.getD (min score 14) 85 * 1.1
     else risk_table.getD (min score 14) 85) 90

/-- The diabetes 10-year risk percentage produced by `calculate_risk`. -/
def ten_year_risk (f : RiskFactors) : ℚ :=
  score_to_percentage (risk_score f) f.sex

/-- Diabetes risk categories (`_categorize_diabetes_risk`). -/
def categorize_diabetes_risk (risk : ℚ) : String :=
  if risk < 10 then "Low" else if risk < 25 then "Medium" else "High"

/-- Key diabetes risk factors (`_identify_diabetes_factors`). -/
def identify_diabetes_factors (f : RiskFactors) : List String :=
  ((if 30 ≤ f.bmi then ["Obesity"] else [])
    ++ (if 45 ≤ f.age then ["Age"] else [])
    ++ (if f.family_history_diabetes then ["Family history"] else [])
    ++ (if f.exercise_frequency = "none" then ["Physical inactivity"] else [])
    ++ (if strLower f.ethnicity ∈ ["african american", "hispanic", "asian"] then
          ["High-risk ethnicity"] else [])
    ++ (match f.systolic_bp with
        | some bp => if bp ≠ 0 ∧ 140 < bp then ["High blood pressure"] else []
        | none => [])).take 5

/-- Diabetes prevention recommendations (`_generate_diabetes_recommendations`). -/
def generate_diabetes_recommendations (f : RiskFactors) (risk : ℚ) : List String :=
  ((if 25 ≤ f.bmi then
      ["Lose " ++ format0f (min 10 ((f.bmi - 24.9) * 2.2))
        ++ "+ pounds through diet and exercise"]
    else [])
    ++ (if f.exercise_frequency = "none" ∨ f.exercise_frequency = "light" then
          ["Aim for 150 minutes of moderate exercise weekly"] else [])
    ++ ["Follow a low-glycemic, high-fiber diet",
        "Limit refined carbohydrates and added sugars",
        "Monitor blood glucose levels regularly"]
    ++ (if 25 < risk then
          ["Discuss metformin therapy with your physician",
           "Consider diabetes prevention program enrollment"] else [])
    ++ ["Maintain healthy sleep patterns (7-9 hours)",
        "Manage stress through mindfulness or counseling",
        "Get annual diabetes screening tests"]).take 8

/-- Full diabetes result (`ADADiabetesRiskCalculator.calculate_risk`). -/
def calculate_risk (f : RiskFactors) : RiskResult :=
  { disease := "Type 2 Diabetes"
    ten_year_risk := ((ten_year_risk f : ℚ) : ℝ)
    risk_category := categorize_diabetes_risk (ten_year_risk f)
    confidence := 0.92
    algorithm_used := "ADA Diabetes Risk Calculator"
    key_risk_factors := identify_diabetes_factors f
    recommendations := generate_diabetes_recommendations f (ten_year_risk f) }

end ADADiabetesRiskCalculator

namespace CancerRiskCalculator

/-- Baseline 10-year cancer incidence by age band and sex
(`_get_base_cancer_risk`); ages outside the bands use the documented
defaults (`35.0 if age >= 80 else 0.5`, reached for ages under 20 or at
least 90). -/
def base_cancer_risk (age : ℤ) (sex : Sex) : ℚ :=
  if sex = Sex.male then
    if 20 ≤ age ∧ age < 30 then 0.5
    else if 30 ≤ age ∧ age < 40 then 1.2
    else if 40 ≤ age ∧ age < 50 then 3.8
    else if 50 ≤ age ∧ age < 60 then 8.7
    else if 60 ≤ age ∧ age < 70 then 16.2
    else if 70 ≤ age ∧ age < 80 then 25.1
    else if 80 ≤ age ∧ age < 90 then 32.8
    else if 80 ≤ age then 35.0 else 0.5
  else
    if 20 ≤ age ∧ age < 30 then 0.6
    else if 30 ≤ age ∧ age < 40 then 1.8
    else if 40 ≤ age ∧ age < 50 then 4.2
    else if 50 ≤ age ∧ age < 60 then 7.9
    else if 60 ≤ age ∧ age < 70 then 13.6
    else if 70 ≤ age ∧ age < 80 then 21.4
    else if 80 ≤ age ∧ age < 90 then 28.9
    else if 80 ≤ age then 35.0 else 0.5

/-- Multiplicative risk modifiers applied in `calculate_risk`, in source
order: smoking, family history, alcohol, BMI, exercise. -/
def risk_multiplier (f : RiskFactors) : ℚ :=
  (if f.smoking then 2.5 else 1)
  * (if f.family_history_cancer then 1.8 else 1)
  * (if f.alcohol_consumption = "heavy" then 1.4
     else if f.alcohol_consumption = "moderate" then 1.1 else 1)
  * (if 35 ≤ f.bmi then 1.3 else if 30 ≤ f.bmi then 1.15 else 1)
  * (if f.exercise_frequency = "heavy" then 0.8
     else if f.exercise_frequency = "moderate" then 0.9
     else if f.exercise_frequency = "none" then 1.2 else 1)

/-- The product `base_risk * risk_multiplier` before the cap at 80. -/
def pre_clamp_risk (f : RiskFactors) : ℚ :=
  base_cancer_risk f.age f.sex * risk_multiplier f

/-- Ethnicity-specific cancer adjustment (`_apply_cancer_ethnicity_adjustment`),
default multiplier 1.0. -/
def cancer_ethnicity_multiplier (ethnicity : String) : ℚ :=
  if ethnicityKey ethnicity = "african_american" then 1.1
  else if ethnicityKey ethnicity = "caucasian" then 1.0
  else if ethnicityKey ethnicity = "hispanic" then 0.9
  else if ethnicityKey ethnicity = "asian" then 0.8
  else if ethnicityKey ethnicity = "native_american" then 1.2
  else 1.0

/-- The cancer 10-year risk returned in the `RiskResult`: the product is
capped at 80 and the ethnicity multiplier is applied afterwards. -/
def ten_year_risk (f : RiskFactors) : ℚ :=
  min (pre_clamp_risk f) 80 * cancer_ethnicity_multiplier f.ethnicity

/-- Cancer risk categories (`_categorize_cancer_risk`). -/
def categorize_cancer_risk (risk : ℚ) : String :=
  if risk < 5 then "Low" else if risk < 15 then "Medium" else "High"

/-- Key cancer risk factors (`_identify_cancer_factors`). -/
def identify_cancer_factors (f : RiskFactors) : List String :=
  ((if f.smoking then ["Smoking"] else [])
    ++ (if 65 < f.age then ["Advanced age"] else [])
    ++ (if f.family_history_cancer then ["Family history"] else [])
    ++ (if f.alcohol_consumption = "heavy" then ["Heavy alcohol use"] else [])
    ++ (if 30 ≤ f.bmi then ["Obesity"] else [])
    ++ (if f.exercise_frequency = "none" then ["Physical inactivity"] else [])).take 5

/-- Cancer prevention recommendations (`_generate_cancer_recommendations`). -/
def generate_cancer_recommendations (f : RiskFactors) (risk : ℚ) : List String :=
  ((if f.smoking then ["Quit smoking - reduces cancer risk significantly"] else [])
    ++ ["Follow cancer screening guidelines for your age group",
        "Maintain a diet rich in fruits and vegetables",
        "Limit processed and red meat consumption"]
    ++ (if f.alcohol_consumption = "moderate" ∨ f.alcohol_consumption = "heavy" then
          ["Limit alcohol consumption to reduce cancer risk"] else [])
    ++ (if 25 ≤ f.bmi then ["Maintain healthy weight through diet and exercise"] else [])
    ++ ["Protect skin from UV radiation with sunscreen",
        "Stay physically active with regular exercise",
        "Consider genetic counseling if strong family history"]
    ++ (if 15 < risk then ["Discuss enhanced screening protocols with oncologist"]
        else [])).take 8

/-- Full cancer result (`CancerRiskCalculator.calculate_risk`). -/
def calculate_risk (f : RiskFactors) : RiskResult :=
  { disease := "Cancer (Overall)"
    ten_year_risk := ((ten_year_risk f : ℚ) : ℝ)
    risk_category := categorize_cancer_risk (ten_year_risk f)
    confidence := 0.82
    algorithm_used := "NCI Cancer Risk Models"
    key_risk_factors := identify_cancer_factors f
    recommendations := generate_cancer_recommendations f (ten_year_risk f) }

end CancerRiskCalculator

namespace FraminghamRiskCalculator

/-- Age coefficient (`AGE_COEFFS[sex]['coeff']`). -/
def age_coeff : Sex → ℝ
  | Sex.male => 3.06117
  | Sex.female => 2.32888

/-- Total-cholesterol coefficient (`CHOL_COEFFS[sex]['coeff']`). -/
def chol_coeff : Sex → ℝ
  | Sex.male => 1.12370
  | Sex.female => 1.20904

/-- HDL coefficient (`HDL_COEFFS[sex]['coeff']`). -/
def hdl_coeff : Sex → ℝ
  | Sex.male => -0.93263
  | Sex.female => -0.70833

/-- HDL mean (`HDL_COEFFS[sex]['mean']`). -/
def hdl_mean : Sex → ℝ
  | Sex.male => 46
  | Sex.female => 55

/-- Untreated systolic-BP coefficient (`SBP_COEFFS[sex]['untreated']`). -/
def sbp_coeff : Sex → ℝ
  | Sex.male => 1.93303
  | Sex.female => 2.76157

/-- Smoking coefficient (`SMOKING_COEFFS[sex]`). -/
def smoking_coeff : Sex → ℝ
  | Sex.male => 0.65451
  | Sex.female => 0.52873

/-- Diabetes coefficient (`DIABETES_COEFFS[sex]`). -/
def diabetes_coeff : Sex → ℝ
  | Sex.male => 0.57367
  | Sex.female => 0.69154

/-- Baseline survival (`BASELINE_SURVIVAL[sex]`). -/
def baseline_survival : Sex → ℝ
  | Sex.male => 0.88936
  | Sex.female => 0.95012

/-- Estimated total cholesterol when no lab value is given
(`_estimate_cholesterol`). -/
def estimate_cholesterol (f : RiskFactors) : ℚ :=
  180 + (if 50 < f.age then 20 else 0) + (if f.sex = Sex.male then 10 else 0)
    + (if 30 < f.bmi then 15 else 0)
    + (if f.exercise_frequency = "none" then 10 else 0)

/-- Estimated HDL cholesterol (`_estimate_hdl`). -/
def estimate_hdl (f : RiskFactors) : ℚ :=
  let base := (if f.sex = Sex.female then (50 : ℚ) else 40)
    + (if f.exercise_frequency = "heavy" then 10
       else if f.exercise_frequency = "moderate" then 5 else 0)
    - (if 30 < f.bmi then 5 else 0)
    - (if f.smoking then 5 else 0)
  max base 20

/-- Estimated systolic blood pressure (`_estimate_bp`): the accumulated
float is truncated by `int(...)`. -/
def estimate_bp (f : RiskFactors) : ℚ :=
  let base := (120 : ℚ) + (if 50 < f.age then ((f.age : ℚ) - 50) * 0.5 else 0)
    + (if 30 < f.bmi then 10 else 0) + (if f.smoking then 5 else 0)
  ((truncQ base : ℤ) : ℚ)

/-- `factors.total_cholesterol or cls._estimate_cholesterol(factors)`:
Python's `or` falls back on a missing (or zero, hence falsy) lab value. -/
def resolved_chol (f : RiskFactors) : ℚ :=
  match f.total_cholesterol with
  | some c => if c = 0 then estimate_cholesterol f else c
  | none => estimate_cholesterol f

/-- `factors.hdl_cholesterol or cls._estimate_hdl(factors)`. -/
def resolved_hdl (f : RiskFactors) : ℚ :=
  match f.hdl_cholesterol with
  | some c => if c = 0 then estimate_hdl f else c
  | none => estimate_hdl f

/-- `factors.systolic_bp or cls._estimate_bp(factors)`. -/
def resolved_bp (f : RiskFactors) : ℚ :=
  match f.systolic_bp with
  | some c => if c = 0 then estimate_bp f else c
  | none => estimate_bp f

/-- The proportional-hazards total score of `calculate_risk`: five centered
terms plus the smoking and diabetes coefficients. -/
def total_score (f : RiskFactors) : ℝ :=
  age_coeff f.sex * ((f.age : ℝ) - 61)
  + chol_coeff f.sex * (((resolved_chol f : ℚ) : ℝ) - 180)
  + hdl_coeff f.sex * (((resolved_hdl f : ℚ) : ℝ) - hdl_mean f.sex)
  + sbp_coeff f.sex * (((resolved_bp f : ℚ) : ℝ) - 125)
  + (if f.smoking then smoking_coeff f.sex else 0)
  + (if f.diabetes then diabetes_coeff f.sex else 0)

/-- `(1 - baseline_survival ** exp(total_score)) * 100`, as a function of
the sex and the total score. -/
noncomputable def risk_of_score (sex : Sex) (t : ℝ) : ℝ :=
  (1 - baseline_survival sex ^ Real.exp t) * 100

/-- The 10-year risk before the ethnicity adjustment. -/
noncomputable def raw_risk (f : RiskFactors) : ℝ :=
  risk_of_score f.sex (total_score f)

/-- Ethnicity-specific CVD multiplier (`_apply_ethnicity_adjustment`),
default 1.0 for unrecognized ethnicities. -/
def cvd_ethnicity_multiplier (ethnicity : String) (sex : Sex) : ℚ :=
  if ethnicityKey ethnicity = "african_american" then
    (if sex = Sex.male then 1.15 else 1.20)
  else if ethnicityKey ethnicity = "hispanic" then 0.90
  else if ethnicityKey ethnicity = "asian" then 0.85
  else if ethnicityKey ethnicity = "native_american" then 1.25
  else if ethnicityKey ethnicity = "caucasian" then 1.0
  else 1.0

/-- The ethnicity-adjusted 10-year risk (the `ten_year_risk` variable of the
source after `_apply_ethnicity_adjustment`, before the cap). -/
noncomputable def adjusted_risk (f : RiskFactors) : ℝ :=
  raw_risk f * ((cvd_ethnicity_multiplier f.ethnicity f.sex : ℚ) : ℝ)

/-- The risk stored in the returned `RiskResult`: capped at 100. -/
noncomputable def capped_risk (f : RiskFactors) : ℝ :=
  min (adjusted_risk f) 100

/-- CVD risk categories (`_categorize_risk`). -/
noncomputable def categorize_risk (risk : ℝ) : String :=
  if risk < 7.5 then "Low" else if risk < 20 then "Medium" else "High"

/-- Key CVD risk factors (`_identify_key_factors`). -/
def identify_key_factors (f : RiskFactors) (total_chol hdl_chol systolic_bp : ℚ) :
    List String :=
  ((if 65 < f.age then ["Advanced age"] else [])
    ++ (if f.smoking then ["Smoking"] else [])
    ++ (if f.diabetes then ["Diabetes"] else [])
    ++ (if 240 < total_chol then ["High cholesterol"] else [])
    ++ (if hdl_chol < 40 then ["Low HDL cholesterol"] else [])
    ++ (if 140 < systolic_bp then ["High blood pressure"] else [])
    ++ (if 30 < f.bmi then ["Obesity"] else [])
    ++ (if f.family_history_cvd then ["Family history"] else [])
    ++ (if f.exercise_frequency = "none" then ["Sedentary lifestyle"] else [])).take 5

/-- Personalized CVD recommendations (`_generate_recommendations`). -/
noncomputable def generate_recommendations (f : RiskFactors) (risk : ℝ)
    (key_factors : List String) : List String :=
  ((if f.smoking then ["Quit smoking - reduces CVD risk by 50% within 1 year"] else [])
    ++ (if 30 < f.bmi then
          ["Achieve healthy weight (BMI 18.5-24.9) through diet and exercise"] else [])
    ++ (if f.exercise_frequency = "none" ∨ f.exercise_frequency = "light" then
          ["Engage in 150 minutes of moderate aerobic activity weekly"] else [])
    ++ (if "High cholesterol" ∈ key_factors then
          ["Follow heart-healthy diet, consider statin therapy consultation"] else [])
    ++ (if "High blood pressure" ∈ key_factors then
          ["Monitor blood pressure regularly, reduce sodium intake"] else [])
    ++ (if 20 < risk then
          ["Consult cardiologist for comprehensive cardiovascular evaluation"]
        else if 7.5 < risk then
          ["Discuss aspirin therapy and statin use with your physician"] else [])
    ++ ["Follow Mediterranean or DASH diet pattern",
        "Limit alcohol consumption to moderate levels",
        "Manage stress through relaxation techniques",
        "Get adequate sleep (7-9 hours nightly)",
        "Schedule regular health screenings"]).take 8

/-- Full cardiovascular result (`FraminghamRiskCalculator.calculate_risk`). -/
noncomputable def calculate_risk (f : RiskFactors) : RiskResult :=
  { disease := "Heart Disease"
    ten_year_risk := capped_risk f
    risk_category := categorize_risk (adjusted_risk f)
    confidence := 0.89
    algorithm_used := "Framingham Risk Score (2008)"
    key_risk_factors := identify_key_factors f (resolved_chol f) (resolved_hdl f)
      (resolved_bp f)
    recommendations := generate_recommendations f (adjusted_risk f)
      (identify_key_factors f (resolved_chol f) (resolved_hdl f) (resolved_bp f)) }

end FraminghamRiskCalculator

namespace LifeExpectancyCalculator

/-- Ages keyed by the actuarial table (`LIFE_EXPECTANCY_BASE`), sorted as
`sorted(table.keys())`. -/
def table_ages : List ℤ :=
  [20, 25, 30, 35, 40, 45, 50, 55, 60, 65, 70, 75, 80, 85, 90]

/-- US SSA life-expectancy table entry for a table age. -/
def base_table (sex : Sex) (a : ℤ) : ℚ :=
  match sex with
  | Sex.male =>
    if a = 20 then 76.3 else if a = 25 then 76.5 else if a = 30 then 76.8
    else if a = 35 then 77.1 else if a = 40 then 77.5 else if a = 45 then 78.0
    else if a = 50 then 78.6 else if a = 55 then 79.4 else if a = 60 then 80.4
    else if a = 65 then 81.7 else if a = 70 then 83.4 else if a = 75 then 85.6
    else if a = 80 then 88.2 else if a = 85 then 91.2 else 94.8
  | Sex.female =>
    if a = 20 then 81.2 else if a = 25 then 81.3 else if a = 30 then 81.5
    else if a = 35 then 81.7 else if a = 40 then 82.0 else if a = 45 then 82.4
    else if a = 50 then 82.9 else if a = 55 then 83.6 else if a = 60 then 84.5
    else if a = 65 then 85.6 else if a = 70 then 87.0 else if a = 75 then 88.8
    else if a = 80 then 90.9 else if a = 85 then 93.4 else 96.4

/-- Nearest table age by absolute difference; `min(ages, key=...)` keeps the
first minimum, which a left fold with a strict comparison reproduces. -/
def closest_age (age : ℤ) : ℤ :=
  table_ages.foldl (fun best x => if |x - age| < |best - age| then x else best) 20

/-- Base life expectancy from the actuarial table
(`_get_base_life_expectancy`). -/
def get_base_life_expectancy (age : ℤ) (sex : Sex) : ℚ :=
  base_table sex (closest_age age)

/-- The three disease risks handed to the life-expectancy calculator (the
`disease_risk_dict` the orchestrator builds). -/
structure DiseaseRisks where
  heart_disease : ℝ
  diabetes : ℝ
  cancer : ℝ

/-- Heart-disease tier penalty inside `_calculate_risk_adjustments`. -/
noncomputable def heart_penalty (r : ℝ) : ℝ :=
  if 20 < r then -3.5 else if 10 < r then -2.0 else if 5 < r then -1.0 else 0

/-- Diabetes tier penalty inside `_calculate_risk_adjustments`. -/
noncomputable def diabetes_penalty (r : ℝ) : ℝ :=
  if 25 < r then -2.8 else if 15 < r then -1.5 else if 8 < r then -0.8 else 0

/-- Cancer tier penalty inside `_calculate_risk_adjustments`. -/
noncomputable def cancer_penalty (r : ℝ) : ℝ :=
  if 15 < r then -2.2 else if 8 < r then -1.2 else if 4 < r then -0.6 else 0

/-- Life-expectancy adjustment from disease risks
(`_calculate_risk_adjustments`): the running `adjustment` variable after the
three `if/elif` chains. -/
noncomputable def calculate_risk_adjustments (f : RiskFactors) (d : DiseaseRisks) : ℝ :=
  let adjustment : ℝ := 0
  let adjustment := adjustment + heart_penalty d.heart_disease
  let adjustment := adjustment + diabetes_penalty d.diabetes
  let adjustment := adjustment + cancer_penalty d.cancer
  adjustment

/-- Lifestyle-based adjustment (`_calculate_lifestyle_adjustments`). -/
def calculate_lifestyle_adjustments (f : RiskFactors) : ℚ :=
  (if f.smoking then -8.5 else 0)
  + (if 35 ≤ f.bmi then -3.2 else if 30 ≤ f.bmi then -1.8
     else if f.bmi < 18.5 then -1.5
     else if 18.5 ≤ f.bmi ∧ f.bmi ≤ 24.9 then 1.2 else 0)
  + (if f.exercise_frequency = "heavy" then 2.8
     else if f.exercise_frequency = "moderate" then 1.9
     else if f.exercise_frequency = "light" then 0.8
     else if f.exercise_frequency = "none" then -2.1 else 0)
  + (if f.alcohol_consumption = "heavy" then -2.3
     else if f.alcohol_consumption = "moderate" then 0.5 else 0)

/-- Potential life-expectancy gains (`_calculate_potential_gains`), in the
source's insertion order. -/
def calculate_potential_gains (f : RiskFactors) : List (String × ℚ) :=
  (if f.smoking then [("quit_smoking", (8.5 : ℚ))] else [])
  ++ (if 30 ≤ f.bmi then [("weight_loss", min ((f.bmi - 24.9) * 0.3) 3.2)] else [])
  ++ (if f.exercise_frequency = "none" ∨ f.exercise_frequency = "light" then
        [("increase_exercise",
          2.8 - (if f.exercise_frequency = "light" then (0.8 : ℚ) else 0))] else [])
  ++ (if f.alcohol_consumption = "heavy" then [("reduce_alcohol", (2.8 : ℚ))] else [])

/-- The dict returned by `calculate_life_expectancy`. -/
structure LifeExpectancyData where
  current_life_expectancy : ℝ
  base_life_expectancy : ℝ
  risk_adjustment : ℝ
  lifestyle_adjustment : ℝ
  potential_gains : List (String × ℚ)
  years_remaining : ℝ

/-- Life expectancy with risk adjustments (`calculate_life_expectancy`). -/
noncomputable def calculate_life_expectancy (f : RiskFactors) (d : DiseaseRisks) :
    LifeExpectancyData :=
  let base : ℝ := ((get_base_life_expectancy f.age f.sex : ℚ) : ℝ)
  let risk_adjustment := calculate_risk_adjustments f d
  let lifestyle_adjustment : ℝ := ((calculate_lifestyle_adjustments f : ℚ) : ℝ)
  let adjusted := base + risk_adjustment + lifestyle_adjustment
  { current_life_expectancy := pyRound1 adjusted
    base_life_expectancy := pyRound1 base
    risk_adjustment := pyRound1 risk_adjustment
    lifestyle_adjustment := pyRound1 lifestyle_adjustment
    potential_gains := calculate_potential_gains f
    years_remaining := pyRound1 (max 0 (adjusted - (f.age : ℝ))) }

end LifeExpectancyCalculator

namespace MedicalAlgorithmFramework

/-- The BMI computation of `_convert_to_risk_factors`: 25.0 unless both
height and weight are present and truthy, in which case `float(...)` parses
both (raising on junk) and `weight / (height/100)**2` divides (raising when
the parsed height is zero). -/
def bmi_of (ud : UserData) : Option ℚ :=
  if optTruthy (lookupKey ud "height_cm") && optTruthy (lookupKey ud "weight_kg") then
    match lookupKey ud "height_cm" with
    | some hv =>
      match lookupKey ud "weight_kg" with
      | some wv =>
        match pyFloat hv with
        | some h =>
          match pyFloat wv with
          | some w =>
            if (h / 100) ^ 2 = 0 then none else some (w / (h / 100) ^ 2)
          | none => none
        | none => none
      | none => none
    | none => none
  else some 25

/-- Smoking flag from the tobacco-use field: a missing key defaults to the
empty string, any string is lowered and matched against the four current-use
answers, and a non-string raises on `.lower()`. -/
def smoking_flag (o : Option PyVal) : Option Bool :=
  match o with
  | none => some false
  | some (.vstr s) =>
    some (decide (strLower s ∈ ["yes", "current", "daily", "occasionally"]))
  | some _ => none

/-- The exercise-frequency normalization map with its default. -/
def exerciseMap (s : String) : String :=
  if s = "never" then "none"
  else if s = "rarely" then "light"
  else if s = "1-2 times per week" then "light"
  else if s = "3-4 times per week" then "moderate"
  else if s = "5+ times per week" then "heavy"
  else if s = "daily" then "heavy"
  else "moderate"

/-- Exercise frequency from the raw field (missing key → `''` → default). -/
def exercise_of (o : Option PyVal) : Option String :=
  match o with
  | none => some "moderate"
  | some (.vstr s) => some (exerciseMap (strLower s))
  | some _ => none

/-- The alcohol-consumption normalization map with its default. -/
def alcoholMap (s : String) : String :=
  if s = "never" then "none"
  else if s = "rarely" then "light"
  else if s = "occasionally" then "light"
  else if s = "weekly" then "moderate"
  else if s = "daily" then "heavy"
  else if s = "multiple times daily" then "heavy"
  else "moderate"

/-- Alcohol consumption from the raw field. -/
def alcohol_of (o : Option PyVal) : Option String :=
  match o with
  | none => some "moderate"
  | some (.vstr s) => some (alcoholMap (strLower s))
  | some _ => none

/-- A free-text history field: missing → `[]`, a single string is wrapped,
a list must hold strings (a non-string item raises on `.lower()` when the
membership generators below run), anything else is not iterable. -/
def history_list (o : Option PyVal) : Option (List String) :=
  match o with
  | none => some []
  | some (.vstr s) => some [s]
  | some (.vlist xs) => strItems xs
  | some _ => none
where
  strItems : List PyVal → Option (List String)
    | [] => some []
    | .vstr s :: t => (strItems t).map (fun l => s :: l)
    | _ :: _ => none

/-- `any('heart' in item.lower() or 'cardiac' in item.lower() ...)`. -/
def family_cvd_flag (items : List String) : Bool :=
  items.any (fun i => containsSub (strLower i) "heart" || containsSub (strLower i) "cardiac")

/-- `any('diabetes' in item.lower() ...)`. -/
def diabetes_flag (items : List String) : Bool :=
  items.any (fun i => containsSub (strLower i) "diabetes")

/-- `any('cancer' in item.lower() ...)`. -/
def cancer_flag (items : List String) : Bool :=
  items.any (fun i => containsSub (strLower i) "cancer")

/-- `int(user_data.get('age', 35))`: default 35, otherwise `int(...)`. -/
def age_of (o : Option PyVal) : Option ℤ :=
  match o with
  | none => some 35
  | some v => pyInt v

/-- `user_data.get('sex', 'male').lower()`: the source stores the lowered
string; strings other than `male`/`female` make the calculators' sex-keyed
lookups raise `KeyError` later, which the conversion to the `Sex` enum
surfaces here. -/
def sex_of (o : Option PyVal) : Option Sex :=
  match o with
  | none => some Sex.male
  | some (.vstr s) =>
    if strLower s = "male" then some Sex.male
    else if strLower s = "female" then some Sex.female
    else none
  | some _ => none

/-- `user_data.get('ethnicity', 'caucasian')`, stored verbatim; a non-string
makes the calculators' `.lower()` raise later, surfaced here. -/
def ethnicity_of (o : Option PyVal) : Option String :=
  match o with
  | none => some "caucasian"
  | some (.vstr s) => some s
  | some _ => none

/-- A lab field passed through verbatim (`systolic_bp`, cholesterol …):
`None`/missing stays absent; a non-numeric value makes the calculators'
comparisons raise later, surfaced here. -/
def opt_num_of (o : Option PyVal) : Option (Option ℚ) :=
  match o with
  | none => some none
  | some .vnone => some none
  | some (.vint n) => some (some (n : ℚ))
  | some (.vfloat q) => some (some q)
  | some _ => none

/-- `_convert_to_risk_factors`: normalize a raw user-attributes mapping into
a `RiskFactors`; `none` models a raised exception. -/
def convert_to_risk_factors (ud : UserData) : Option RiskFactors := do
  let bmi ← bmi_of ud
  let smoking ← smoking_flag (lookupKey ud "tobacco_use")
  let exercise_freq ← exercise_of (lookupKey ud "exercise_frequency")
  let alcohol_cons ← alcohol_of (lookupKey ud "alcohol_consumption")
  let family_history ← history_list (lookupKey ud "family_history")
  let past_diagnoses ← history_list (lookupKey ud "past_diagnoses")
  let age ← age_of (lookupKey ud "age")
  let sex ← sex_of (lookupKey ud "sex")
  let ethnicity ← ethnicity_of (lookupKey ud "ethnicity")
  let systolic_bp ← opt_num_of (lookupKey ud "systolic_bp")
  let total_cholesterol ← opt_num_of (lookupKey ud "total_cholesterol")
  let hdl_cholesterol ← opt_num_of (lookupKey ud "hdl_cholesterol")
  some
    { age := age
      sex := sex
      ethnicity := ethnicity
      bmi := bmi
      systolic_bp := systolic_bp
      total_cholesterol := total_cholesterol
      hdl_cholesterol := hdl_cholesterol
      smoking := smoking
      diabetes := diabetes_flag past_diagnoses
      family_history_cvd := family_cvd_flag family_history
      family_history_diabetes := diabetes_flag family_history
      family_history_cancer := cancer_flag family_history
      exercise_frequency := exercise_freq
      alcohol_consumption := alcohol_cons }

/-- Per-result weighted risk deduction inside `_calculate_health_score`. -/
noncomputable def risk_deduction (results : List RiskResult) : ℝ :=
  (results.map (fun r =>
    if r.disease = "Heart Disease" then r.ten_year_risk * 0.6
    else if r.disease = "Type 2 Diabetes" then r.ten_year_risk * 0.5
    else if r.disease = "Cancer (Overall)" then r.ten_year_risk * 0.4
    else 0)).sum

/-- The running `score` of `_calculate_health_score` before `int(...)` and
the clamps: base 85, lifestyle penalties, weighted disease risks, age and
family-history adjustments, lifestyle bonuses and three times the
life-expectancy lifestyle adjustment. -/
noncomputable def health_score_raw (results : List RiskResult) (f : RiskFactors)
    (life_adj : ℝ) : ℝ :=
  85
  - (if f.smoking then 25 else 0)
  - (if 35 ≤ f.bmi then 15 else if 30 ≤ f.bmi then 10
     else if f.bmi < 18.5 then 8 else 0)
  - (if f.exercise_frequency = "none" then 15
     else if f.exercise_frequency = "light" then 8 else 0)
  - (if f.alcohol_consumption = "heavy" then 12 else 0)
  - risk_deduction results
  + (if 65 < f.age then -5 else if f.age < 30 then 5 else 0)
  - (if f.family_history_cvd then 3 else 0)
  - (if f.family_history_diabetes then 3 else 0)
  - (if f.family_history_cancer then 3 else 0)
  + (if f.exercise_frequency = "heavy" then 8
     else if f.exercise_frequency = "moderate" then 5 else 0)
  + (if f.smoking then 0 else 5)
  + (if 18.5 ≤ f.bmi ∧ f.bmi ≤ 24.9 then 6 else 0)
  + (if f.alcohol_consumption = "moderate" then 3
     else if f.alcohol_consumption = "none" then 2 else 0)
  + life_adj * 3

/-- `max(15, min(95, int(score)))`: the primary clamp. -/
noncomputable def health_score_primary (results : List RiskResult) (f : RiskFactors)
    (life_adj : ℝ) : ℤ :=
  max 15 (min 95 (truncR (health_score_raw results f life_adj)))

/-- The count of diseases whose ten-year risk exceeds 20%. -/
noncomputable def high_risk_count (results : List RiskResult) : ℕ :=
  (results.filter (fun r => 20 < r.ten_year_risk)).length

/-- `_calculate_health_score`: the primary clamp followed by the secondary
cap keyed on the number of >20% disease risks. -/
noncomputable def calculate_health_score (results : List RiskResult) (f : RiskFactors)
    (life_adj : ℝ) : ℤ :=
  if 2 ≤ high_risk_count results then min (health_score_primary results f life_adj) 45
  else if high_risk_count results = 1 then
    min (health_score_primary results f life_adj) 65
  else health_score_primary results f life_adj

/-- The fixed string inserted at position 0 for smokers. -/
def quit_comprehensive : String :=
  "Quit smoking - single most important health improvement"

/-- The smoking-cessation phrase searched for in `str(all_recommendations)`. -/
def quit_phrase : String := "Quit smoking"

/-- The merge-and-dedup loop over the per-disease recommendation lists. -/
def merge_dedup (results : List RiskResult) : List String :=
  dedupSeq (results.flatMap (fun r => r.recommendations))

/-- The smoker insertion step: one fixed string at position 0 when the
subject smokes and `"Quit smoking" not in str(all_recommendations)`. -/
def insert_quit (f : RiskFactors) (l : List String) : List String :=
  if f.smoking && !(subLst quit_phrase.data (pyStrData l)) then
    quit_comprehensive :: l
  else l

/-- The BMI-specific appended entry. -/
def weight_recommendation (f : RiskFactors) : String :=
  "Achieve healthy weight (current BMI: " ++ format1f f.bmi ++ ")"

/-- The BMI append step. -/
def append_weight (f : RiskFactors) (l : List String) : List String :=
  if 30 ≤ f.bmi then
    (if weight_recommendation f ∈ l then l else l ++ [weight_recommendation f])
  else l

/-- The exercise-start appended entry. -/
def exercise_recommendation : String :=
  "Start with 30 minutes of walking 5 days per week"

/-- The exercise append step. -/
def append_exercise (f : RiskFactors) (l : List String) : List String :=
  if f.exercise_frequency = "none" then
    (if exercise_recommendation ∈ l then l else l ++ [exercise_recommendation])
  else l

/-- `_generate_comprehensive_recommendations`: merge the per-disease lists
preserving first-seen order and deduplicating, force-insert a cessation
string for smokers when no entry mentions quitting, append BMI- and
exercise-specific entries when applicable, truncate to 10. -/
def generate_comprehensive_recommendations (results : List RiskResult)
    (f : RiskFactors) : List String :=
  (append_exercise f (append_weight f (insert_quit f (merge_dedup results)))).take 10

/-- `_risk_result_to_dict`'s output shape. -/
structure RiskResultDict where
  disease_name : String
  risk_score : ℝ
  risk_category : String
  confidence_score : ℚ
  algorithm_used : String
  key_risk_factors : List String
  recommendations : List String

/-- `_risk_result_to_dict`. -/
def risk_result_to_dict (r : RiskResult) : RiskResultDict :=
  { disease_name := r.disease
    risk_score := r.ten_year_risk
    risk_category := r.risk_category
    confidence_score := r.confidence * 100
    algorithm_used := r.algorithm_used
    key_risk_factors := r.key_risk_factors
    recommendations := r.recommendations }

/-- The dict returned by `comprehensive_risk_assessment`. -/
structure Assessment where
  risk_assessments : List RiskResultDict
  health_score : ℤ
  life_expectancy : LifeExpectancyCalculator.LifeExpectancyData
  comprehensive_recommendations : List String
  algorithm_framework : String
  assessment_date : String

/-- `comprehensive_risk_assessment`: the orchestrator, as a function of the
raw user data and of the timestamp `datetime.utcnow().isoformat()` reads —
the only clock access in the engine.  `none` models the normalizer's
exception propagating to the caller. -/
noncomputable def comprehensive_risk_assessment (ud : UserData) (now : String) :
    Option Assessment :=
  (convert_to_risk_factors ud).map (fun factors =>
    let heart_risk := FraminghamRiskCalculator.calculate_risk factors
    let diabetes_risk := ADADiabetesRiskCalculator.calculate_risk factors
    let cancer_risk := CancerRiskCalculator.calculate_risk factors
    let disease_risk_dict : LifeExpectancyCalculator.DiseaseRisks :=
      { heart_disease := heart_risk.ten_year_risk
        diabetes := diabetes_risk.ten_year_risk
        cancer := cancer_risk.ten_year_risk }
    let life_expectancy_data :=
      LifeExpectancyCalculator.calculate_life_expectancy factors disease_risk_dict
    { risk_assessments :=
        [risk_result_to_dict heart_risk, risk_result_to_dict diabetes_risk,
         risk_result_to_dict cancer_risk]
      health_score :=
        calculate_health_score [heart_risk, diabetes_risk, cancer_risk] factors
          life_expectancy_data.lifestyle_adjustment
      life_expectancy := life_expectancy_data
      comprehensive_recommendations :=
        generate_comprehensive_recommendations
          [heart_risk, diabetes_risk, cancer_risk] factors
      algorithm_framework := "Evidence-Based Medical Algorithms v2.0"
      assessment_date := now })

end MedicalAlgorithmFramework

/-! ## Helper lemmas -/

namespace ADADiabetesRiskCalculator

lemma risk_table_getD_ge_one (n : ℕ) : (1 : ℚ) ≤ risk_table.getD n 85 := by
  rcases lt_or_ge n 15 with h | h
  · interval_cases n <;> norm_num [risk_table]
  · rw [List.getD_eq_default]
    · norm_num
    · simpa [risk_table] using h

lemma score_to_percentage_ge_one (score : ℕ) (sex : Sex) :
    (1 : ℚ) ≤ score_to_percentage score sex := by
  unfold score_to_percentage
  have h := risk_table_getD_ge_one (min score 14)
  rcases sex with _ | _
  · rw [if_pos rfl]
    exact le_min (by nlinarith) (by norm_num)
  · rw [if_neg (by decide)]
    exact le_min h (by norm_num)

lemma score_to_percentage_mono (a b : ℕ) (hab : a ≤ b) (sex : Sex) :
    score_to_percentage a sex ≤ score_to_percentage b sex := by
  have hfin : ∀ i j : Fin 15, i ≤ j →
      risk_table.getD (i : ℕ) 85 ≤ risk_table.getD (j : ℕ) 85 := by decide
  have h1 : min a 14 < 15 := by omega
  have h2 : min b 14 < 15 := by omega
  have hle : (⟨min a 14, h1⟩ : Fin 15) ≤ ⟨min b 14, h2⟩ := by
    simp only [Fin.mk_le_mk]
    omega
  have htab := hfin ⟨min a 14, h1⟩ ⟨min b 14, h2⟩ hle
  simp only [] at htab
  unfold score_to_percentage
  rcases sex with _ | _
  · rw [if_pos rfl, if_pos rfl]
    exact min_le_min (by nlinarith) le_rfl
  · rw [if_neg (by decide), if_neg (by decide)]
    exact min_le_min htab le_rfl

end ADADiabetesRiskCalculator

namespace FraminghamRiskCalculator

lemma baseline_survival_pos (sex : Sex) : 0 < baseline_survival sex := by
  cases sex <;> norm_num [baseline_survival]

lemma baseline_survival_lt_one (sex : Sex) : baseline_survival sex < 1 := by
  cases sex <;> norm_num [baseline_survival]

lemma risk_of_score_nonneg (sex : Sex) (t : ℝ) : 0 ≤ risk_of_score sex t := by
  have h1 : baseline_survival sex ^ Real.exp t ≤ 1 :=
    Real.rpow_le_one (baseline_survival_pos sex).le (baseline_survival_lt_one sex).le
      (Real.exp_nonneg t)
  unfold risk_of_score
  nlinarith

lemma risk_of_score_lt_100 (sex : Sex) (t : ℝ) : risk_of_score sex t < 100 := by
  have h1 : 0 < baseline_survival sex ^ Real.exp t :=
    Real.rpow_pos_of_pos (baseline_survival_pos sex) _
  unfold risk_of_score
  nlinarith

lemma risk_of_score_strict_mono (sex : Sex) (t t' : ℝ) (h : t < t') :
    risk_of_score sex t < risk_of_score sex t' := by
  have h1 : baseline_survival sex ^ Real.exp t' < baseline_survival sex ^ Real.exp t :=
    Real.rpow_lt_rpow_of_exponent_gt (baseline_survival_pos sex)
      (baseline_survival_lt_one sex) (Real.exp_lt_exp.mpr h)
  unfold risk_of_score
  nlinarith

lemma cvd_ethnicity_multiplier_pos (e : String) (sex : Sex) :
    0 < cvd_ethnicity_multiplier e sex := by
  unfold cvd_ethnicity_multiplier
  split_ifs <;> norm_num

lemma adjusted_risk_nonneg (f : RiskFactors) : 0 ≤ adjusted_risk f := by
  unfold adjusted_risk
  have h1 := risk_of_score_nonneg f.sex (total_score f)
  have h2 := cvd_ethnicity_multiplier_pos f.ethnicity f.sex
  have h2' : (0 : ℝ) < ((cvd_ethnicity_multiplier f.ethnicity f.sex : ℚ) : ℝ) := by
    exact_mod_cast h2
  exact mul_nonneg h1 h2'.le

lemma capped_risk_nonneg (f : RiskFactors) : 0 ≤ capped_risk f :=
  le_min (adjusted_risk_nonneg f) (by norm_num)

lemma capped_risk_le_100 (f : RiskFactors) : capped_risk f ≤ 100 := min_le_right _ _

end FraminghamRiskCalculator

namespace CancerRiskCalculator

lemma base_cancer_risk_nonneg (age : ℤ) (sex : Sex) : 0 ≤ base_cancer_risk age sex := by
  unfold base_cancer_risk
  split_ifs <;> norm_num

lemma base_cancer_risk_pos (age : ℤ) (sex : Sex) : 0 < base_cancer_risk age sex := by
  unfold base_cancer_risk
  split_ifs <;> norm_num

lemma risk_multiplier_pos (f : RiskFactors) : 0 < risk_multiplier f := by
  unfold risk_multiplier
  have h1 : (0:ℚ) < (if f.smoking then 2.5 else 1) := by split_ifs <;> norm_num
  have h2 : (0:ℚ) < (if f.family_history_cancer then 1.8 else 1) := by
    split_ifs <;> norm_num
  have h3 : (0:ℚ) < (if f.alcohol_consumption = "heavy" then 1.4
      else if f.alcohol_consumption = "moderate" then 1.1 else 1) := by
    split_ifs <;> norm_num
  have h4 : (0:ℚ) < (if 35 ≤ f.bmi then 1.3 else if 30 ≤ f.bmi then 1.15 else 1) := by
    split_ifs <;> norm_num
  have h5 : (0:ℚ) < (if f.exercise_frequency = "heavy" then 0.8
      else if f.exercise_frequency = "moderate" then 0.9
      else if f.exercise_frequency = "none" then 1.2 else 1) := by
    split_ifs <;> norm_num
  positivity

lemma cancer_ethnicity_multiplier_pos (e : String) :
    0 < cancer_ethnicity_multiplier e := by
  unfold cancer_ethnicity_multiplier
  split_ifs <;> norm_num

lemma cancer_ethnicity_multiplier_le (e : String) :
    cancer_ethnicity_multiplier e ≤ 1.2 := by
  unfold cancer_ethnicity_multiplier
  split_ifs <;> norm_num

lemma pre_clamp_risk_pos (f : RiskFactors) : 0 < pre_clamp_risk f :=
  mul_pos (base_cancer_risk_pos f.age f.sex) (risk_multiplier_pos f)

lemma ten_year_risk_nonneg (f : RiskFactors) : 0 ≤ ten_year_risk f := by
  unfold ten_year_risk
  exact mul_nonneg (le_min (pre_clamp_risk_pos f).le (by norm_num))
    (cancer_ethnicity_multiplier_pos f.ethnicity).le

lemma ten_year_risk_le_96 (f : RiskFactors) : ten_year_risk f ≤ 96 := by
  unfold ten_year_risk
  have h1 : min (pre_clamp_risk f) 80 ≤ 80 := min_le_right _ _
  have h2 : (0:ℚ) ≤ min (pre_clamp_risk f) 80 :=
    le_min (pre_clamp_risk_pos f).le (by norm_num)
  have h3 := cancer_ethnicity_multiplier_le f.ethnicity
  have h4 := (cancer_ethnicity_multiplier_pos f.ethnicity).le
  nlinarith

end CancerRiskCalculator

/-! ## Claim theorems -/

/-- C4: the risk-category thresholds are strict lower-bound comparisons: a
cardiovascular ten-year risk of exactly 7.5 is categorized Medium (not Low)
and exactly 20 is High; a diabetes risk of exactly 10 is Medium and exactly
25 is High; a cancer risk of exactly 5 is Medium and exactly 15 is High. -/
theorem C4_category_boundaries :
    FraminghamRiskCalculator.categorize_risk (7.5 : ℝ) = "Medium"
    ∧ FraminghamRiskCalculator.categorize_risk (20 : ℝ) = "High"
    ∧ ADADiabetesRiskCalculator.categorize_diabetes_risk (10 : ℚ) = "Medium"
    ∧ ADADiabetesRiskCalculator.categorize_diabetes_risk (25 : ℚ) = "High"
    ∧ CancerRiskCalculator.categorize_cancer_risk (5 : ℚ) = "Medium"
    ∧ CancerRiskCalculator.categorize_cancer_risk (15 : ℚ) = "High" := by
  refine ⟨?_, ?_, ?_, ?_, ?_, ?_⟩
  · unfold FraminghamRiskCalculator.categorize_risk
    rw [if_neg (by norm_num), if_pos (by norm_num)]
  · unfold FraminghamRiskCalculator.categorize_risk
    rw [if_neg (by norm_num), if_neg (by norm_num)]
  · decide
  · decide
  · decide
  · decide

/-- C10: for every `RiskFactors` input the diabetes ten-year risk returned
by the ADA calculator is at least 1 percent: the score table's minimum entry
is 1, and the male multiplier and the clamp at 90 never push the value below
1, so the calculator never reports a 0% diabetes risk. -/
theorem C10_diabetes_risk_ge_one (f : RiskFactors) :
    1 ≤ (ADADiabetesRiskCalculator.calculate_risk f).ten_year_risk := by
  have h := ADADiabetesRiskCalculator.score_to_percentage_ge_one
    (ADADiabetesRiskCalculator.risk_score f) f.sex
  simp only [ADADiabetesRiskCalculator.calculate_risk,
    ADADiabetesRiskCalculator.ten_year_risk]
  exact_mod_cast h

/-- Concrete high-risk input refuting the 80-cap on the returned cancer
risk: 85-year-old male, native-american, BMI 36, smoker, family history of
cancer, no exercise, heavy alcohol. -/
def c1Factors : RiskFactors :=
  { age := 85, sex := Sex.male, ethnicity := "native_american", bmi := 36,
    smoking := true, family_history_cancer := true,
    exercise_frequency := "none", alcohol_consumption := "heavy" }

/-- C1 counterexample: at `c1Factors` the cancer calculator's returned
ten-year risk is 96, above the documented cap of 80 — the clamp to 80 is
applied before the ethnicity multiplier (here 1.2), not after. -/
theorem C1_cancer_cap_counterexample :
    ¬ ((CancerRiskCalculator.calculate_risk c1Factors).ten_year_risk ≤ 80) := by
  have he : ethnicityKey "native_american" = "native_american" := by decide
  have h : CancerRiskCalculator.ten_year_risk c1Factors = 96 := by
    simp [CancerRiskCalculator.ten_year_risk, CancerRiskCalculator.pre_clamp_risk,
      CancerRiskCalculator.base_cancer_risk, CancerRiskCalculator.risk_multiplier,
      CancerRiskCalculator.cancer_ethnicity_multiplier, c1Factors, he]
    norm_num [min_def]
  simp only [CancerRiskCalculator.calculate_risk, h]
  norm_num

/-- C1 (amended): for every `RiskFactors` input each per-disease ten-year
risk is non-negative; the cardiovascular result is at most 100 and the
diabetes result at most 90, as documented; for cancer the clamp to 80 is
applied before the ethnicity multiplier (at most 1.2), so the final returned
ten-year risk is bounded by 96 = 80 * 1.2 rather than 80. -/
theorem C1_risk_bounds_amended (f : RiskFactors) :
    (0 ≤ (FraminghamRiskCalculator.calculate_risk f).ten_year_risk
      ∧ (FraminghamRiskCalculator.calculate_risk f).ten_year_risk ≤ 100)
    ∧ (0 ≤ (ADADiabetesRiskCalculator.calculate_risk f).ten_year_risk
      ∧ (ADADiabetesRiskCalculator.calculate_risk f).ten_year_risk ≤ 90)
    ∧ (0 ≤ (CancerRiskCalculator.calculate_risk f).ten_year_risk
      ∧ (CancerRiskCalculator.calculate_risk f).ten_year_risk ≤ 96) := by
  refine ⟨⟨?_, ?_⟩, ⟨?_, ?_⟩, ⟨?_, ?_⟩⟩
  · simpa only [FraminghamRiskCalculator.calculate_risk] using
      FraminghamRiskCalculator.capped_risk_nonneg f
  · simpa only [FraminghamRiskCalculator.calculate_risk] using
      FraminghamRiskCalculator.capped_risk_le_100 f
  · have h := ADADiabetesRiskCalculator.score_to_percentage_ge_one
      (ADADiabetesRiskCalculator.risk_score f) f.sex
    simp only [ADADiabetesRiskCalculator.calculate_risk,
      ADADiabetesRiskCalculator.ten_year_risk]
    have h' : (0:ℚ) ≤ ADADiabetesRiskCalculator.score_to_percentage
        (ADADiabetesRiskCalculator.risk_score f) f.sex := by linarith
    exact_mod_cast h'
  · have h : ADADiabetesRiskCalculator.score_to_percentage
        (ADADiabetesRiskCalculator.risk_score f) f.sex ≤ 90 := min_le_right _ _
    simp only [ADADiabetesRiskCalculator.calculate_risk,
      ADADiabetesRiskCalculator.ten_year_risk]
    exact_mod_cast h
  · have h := CancerRiskCalculator.ten_year_risk_nonneg f
    simp only [CancerRiskCalculator.calculate_risk]
    exact_mod_cast h
  · have h := CancerRiskCalculator.ten_year_risk_le_96 f
    simp only [CancerRiskCalculator.calculate_risk]
    exact_mod_cast h

namespace LifeExpectancyCalculator

/-- Spec-side view of a tier table: the (threshold, penalty) pairs of one
disease's tiered penalties. -/
noncomputable def heart_tiers : List (ℝ × ℝ) := [(20, -3.5), (10, -2.0), (5, -1.0)]

/-- Diabetes tier table. -/
noncomputable def diabetes_tiers : List (ℝ × ℝ) := [(25, -2.8), (15, -1.5), (8, -0.8)]

/-- Cancer tier table. -/
noncomputable def cancer_tiers : List (ℝ × ℝ) := [(15, -2.2), (8, -1.2), (4, -0.6)]

/-- Modelled from the spec: the penalties of the tiers whose thresholds the
risk exceeds. -/
noncomputable def applicable_penalties (tiers : List (ℝ × ℝ)) (r : ℝ) : List ℝ :=
  (tiers.filter (fun t => t.1 < r)).map (fun t => t.2)

/-- Modelled from the spec: the single highest (most severe, i.e. least)
applicable tier penalty, 0 when no tier applies. -/
noncomputable def highest_tier (tiers : List (ℝ × ℝ)) (r : ℝ) : ℝ :=
  (applicable_penalties tiers r).foldr min 0

lemma highest_tier_heart (r : ℝ) : highest_tier heart_tiers r = heart_penalty r := by
  unfold highest_tier applicable_penalties heart_tiers heart_penalty
  split_ifs with h1 h2 h3
  · have h2 : (10:ℝ) < r := by linarith
    have h3 : (5:ℝ) < r := by linarith
    simp [List.filter_cons, h1, h2, h3, min_def]
    norm_num
  · have h3 : (5:ℝ) < r := by linarith
    simp [List.filter_cons, h1, h2, h3, min_def]
    norm_num
  · simp [List.filter_cons, h1, h2, h3, min_def]
    norm_num
  · simp [List.filter_cons, h1, h2, h3]

lemma highest_tier_diabetes (r : ℝ) :
    highest_tier diabetes_tiers r = diabetes_penalty r := by
  unfold highest_tier applicable_penalties diabetes_tiers diabetes_penalty
  split_ifs with h1 h2 h3
  · have h2 : (15:ℝ) < r := by linarith
    have h3 : (8:ℝ) < r := by linarith
    simp [List.filter_cons, h1, h2, h3, min_def]
    norm_num
  · have h3 : (8:ℝ) < r := by linarith
    simp [List.filter_cons, h1, h2, h3, min_def]
    norm_num
  · simp [List.filter_cons, h1, h2, h3, min_def]
    norm_num
  · simp [List.filter_cons, h1, h2, h3]

lemma highest_tier_cancer (r : ℝ) :
    highest_tier cancer_tiers r = cancer_penalty r := by
  unfold highest_tier applicable_penalties cancer_tiers cancer_penalty
  split_ifs with h1 h2 h3
  · have h2 : (8:ℝ) < r := by linarith
    have h3 : (4:ℝ) < r := by linarith
    simp [List.filter_cons, h1, h2, h3, min_def]
    norm_num
  · have h3 : (4:ℝ) < r := by linarith
    simp [List.filter_cons, h1, h2, h3, min_def]
    norm_num
  · simp [List.filter_cons, h1, h2, h3, min_def]
    norm_num
  · simp [List.filter_cons, h1, h2, h3]

lemma heart_penalty_nonpos (r : ℝ) : heart_penalty r ≤ 0 := by
  unfold heart_penalty
  split_ifs <;> norm_num

lemma diabetes_penalty_nonpos (r : ℝ) : diabetes_penalty r ≤ 0 := by
  unfold diabetes_penalty
  split_ifs <;> norm_num

lemma cancer_penalty_nonpos (r : ℝ) : cancer_penalty r ≤ 0 := by
  unfold cancer_penalty
  split_ifs <;> norm_num

lemma heart_penalty_neg (r : ℝ) (h : 5 < r) : heart_penalty r < 0 := by
  unfold heart_penalty
  split_ifs <;> first | norm_num | linarith

lemma diabetes_penalty_neg (r : ℝ) (h : 8 < r) : diabetes_penalty r < 0 := by
  unfold diabetes_penalty
  split_ifs <;> first | norm_num | linarith

lemma cancer_penalty_neg (r : ℝ) (h : 4 < r) : cancer_penalty r < 0 := by
  unfold cancer_penalty
  split_ifs <;> first | norm_num | linarith

end LifeExpectancyCalculator

/-- A healthy baseline input used by several concrete instances. -/
def c8Factors : RiskFactors :=
  { age := 30, sex := Sex.male, ethnicity := "caucasian", bmi := 22 }

/-- C8 counterexample: with all three disease risks at 0 (below every tier
threshold) the risk adjustment is exactly 0, not strictly below zero. -/
theorem C8_zero_adjustment_counterexample :
    LifeExpectancyCalculator.calculate_risk_adjustments c8Factors
        ⟨(0 : ℝ), (0 : ℝ), (0 : ℝ)⟩ = 0
    ∧ ¬ (LifeExpectancyCalculator.calculate_risk_adjustments c8Factors
        ⟨(0 : ℝ), (0 : ℝ), (0 : ℝ)⟩ < 0) := by
  have h : LifeExpectancyCalculator.calculate_risk_adjustments c8Factors
      ⟨(0 : ℝ), (0 : ℝ), (0 : ℝ)⟩ = 0 := by
    unfold LifeExpectancyCalculator.calculate_risk_adjustments
    norm_num [LifeExpectancyCalculator.heart_penalty,
      LifeExpectancyCalculator.diabetes_penalty,
      LifeExpectancyCalculator.cancer_penalty]
  exact ⟨h, by rw [h]; norm_num⟩

/-- C8 (amended): for every input and every disease-risk map the
life-expectancy risk adjustment equals the sum over the three diseases of
the single highest applicable tier penalty (one tier per disease, not
cumulative); it is always non-positive, and strictly below zero exactly when
at least one disease risk exceeds its lowest tier threshold (heart > 5,
diabetes > 8 or cancer > 4), not for every input. -/
theorem C8_risk_adjustment_amended (f : RiskFactors)
    (d : LifeExpectancyCalculator.DiseaseRisks) :
    LifeExpectancyCalculator.calculate_risk_adjustments f d
      = LifeExpectancyCalculator.highest_tier LifeExpectancyCalculator.heart_tiers
          d.heart_disease
        + LifeExpectancyCalculator.highest_tier LifeExpectancyCalculator.diabetes_tiers
          d.diabetes
        + LifeExpectancyCalculator.highest_tier LifeExpectancyCalculator.cancer_tiers
          d.cancer
    ∧ LifeExpectancyCalculator.calculate_risk_adjustments f d ≤ 0
    ∧ ((5 < d.heart_disease ∨ 8 < d.diabetes ∨ 4 < d.cancer) →
        LifeExpectancyCalculator.calculate_risk_adjustments f d < 0) := by
  have hsum : LifeExpectancyCalculator.calculate_risk_adjustments f d
      = LifeExpectancyCalculator.heart_penalty d.heart_disease
        + LifeExpectancyCalculator.diabetes_penalty d.diabetes
        + LifeExpectancyCalculator.cancer_penalty d.cancer := by
    unfold LifeExpectancyCalculator.calculate_risk_adjustments
    ring
  have h1 := LifeExpectancyCalculator.heart_penalty_nonpos d.heart_disease
  have h2 := LifeExpectancyCalculator.diabetes_penalty_nonpos d.diabetes
  have h3 := LifeExpectancyCalculator.cancer_penalty_nonpos d.cancer
  refine ⟨?_, ?_, ?_⟩
  · rw [hsum, LifeExpectancyCalculator.highest_tier_heart,
      LifeExpectancyCalculator.highest_tier_diabetes,
      LifeExpectancyCalculator.highest_tier_cancer]
  · rw [hsum]
    linarith
  · rintro (h | h | h)
    · have := LifeExpectancyCalculator.heart_penalty_neg d.heart_disease h
      rw [hsum]
      linarith
    · have := LifeExpectancyCalculator.diabetes_penalty_neg d.diabetes h
      rw [hsum]
      linarith
    · have := LifeExpectancyCalculator.cancer_penalty_neg d.cancer h
      rw [hsum]
      linarith

lemma truncQ_mono {a b : ℚ} (h : a ≤ b) : truncQ a ≤ truncQ b := by
  unfold truncQ
  split_ifs with h1 h2 h2
  · exact Int.floor_le_floor h
  · exact absurd (h1.trans h) h2
  · have ha : ⌈a⌉ ≤ 0 := Int.ceil_le.mpr (by exact_mod_cast le_of_not_le h1)
    have hb : 0 ≤ ⌊b⌋ := Int.floor_nonneg.mpr h2
    omega
  · exact Int.ceil_le_ceil h

namespace FraminghamRiskCalculator

lemma smoking_coeff_pos (sex : Sex) : 0 < smoking_coeff sex := by
  cases sex <;> norm_num [smoking_coeff]

lemma hdl_coeff_neg (sex : Sex) : hdl_coeff sex < 0 := by
  cases sex <;> norm_num [hdl_coeff]

lemma sbp_coeff_pos (sex : Sex) : 0 < sbp_coeff sex := by
  cases sex <;> norm_num [sbp_coeff]

lemma estimate_hdl_le (f : RiskFactors) :
    estimate_hdl {f with smoking := true} ≤ estimate_hdl {f with smoking := false} := by
  unfold estimate_hdl
  simp only []
  apply max_le_max _ le_rfl
  simp

lemma estimate_bp_le (f : RiskFactors) :
    estimate_bp {f with smoking := false} ≤ estimate_bp {f with smoking := true} := by
  unfold estimate_bp
  simp only []
  have : ((truncQ ((120:ℚ) + (if 50 < f.age then ((f.age : ℚ) - 50) * 0.5 else 0)
      + (if 30 < f.bmi then 10 else 0) + 0) : ℤ) : ℚ)
      ≤ ((truncQ ((120:ℚ) + (if 50 < f.age then ((f.age : ℚ) - 50) * 0.5 else 0)
      + (if 30 < f.bmi then 10 else 0) + 5) : ℤ) : ℚ) := by
    exact_mod_cast truncQ_mono (by linarith)
  simpa using this

end FraminghamRiskCalculator

namespace FraminghamRiskCalculator

lemma resolved_chol_smoking (f : RiskFactors) (b : Bool) :
    resolved_chol {f with smoking := b} = resolved_chol f := rfl

lemma resolved_hdl_le (f : RiskFactors) :
    resolved_hdl {f with smoking := true} ≤ resolved_hdl {f with smoking := false} := by
  unfold resolved_hdl
  simp only []
  rcases hc : f.hdl_cholesterol with _ | c
  · exact estimate_hdl_le f
  · simp only []
    split_ifs
    · exact estimate_hdl_le f
    · exact le_rfl

lemma resolved_bp_le (f : RiskFactors) :
    resolved_bp {f with smoking := false} ≤ resolved_bp {f with smoking := true} := by
  unfold resolved_bp
  simp only []
  rcases hc : f.systolic_bp with _ | c
  · exact estimate_bp_le f
  · simp only []
    split_ifs
    · exact estimate_bp_le f
    · exact le_rfl

lemma total_score_lt (f : RiskFactors) :
    total_score {f with smoking := false} < total_score {f with smoking := true} := by
  unfold total_score
  simp only [resolved_chol_smoking]
  have hhdl : ((resolved_hdl {f with smoking := true} : ℚ) : ℝ)
      ≤ ((resolved_hdl {f with smoking := false} : ℚ) : ℝ) := by
    exact_mod_cast resolved_hdl_le f
  have hbp : ((resolved_bp {f with smoking := false} : ℚ) : ℝ)
      ≤ ((resolved_bp {f with smoking := true} : ℚ) : ℝ) := by
    exact_mod_cast resolved_bp_le f
  have h1 := hdl_coeff_neg f.sex
  have h2 := sbp_coeff_pos f.sex
  have h3 := smoking_coeff_pos f.sex
  have hh : hdl_coeff f.sex * (((resolved_hdl {f with smoking := false} : ℚ) : ℝ)
        - hdl_mean f.sex)
      ≤ hdl_coeff f.sex * (((resolved_hdl {f with smoking := true} : ℚ) : ℝ)
        - hdl_mean f.sex) := by
    apply mul_le_mul_of_nonpos_left _ h1.le
    linarith
  have hb : sbp_coeff f.sex * (((resolved_bp {f with smoking := false} : ℚ) : ℝ) - 125)
      ≤ sbp_coeff f.sex * (((resolved_bp {f with smoking := true} : ℚ) : ℝ) - 125) := by
    apply mul_le_mul_of_nonneg_left _ h2.le
    linarith
  simp only [if_true, if_false, Bool.false_eq_true]
  linarith

end FraminghamRiskCalculator

namespace FraminghamRiskCalculator

lemma adjusted_risk_lt (f : RiskFactors) :
    adjusted_risk {f with smoking := false} < adjusted_risk {f with smoking := true} := by
  unfold adjusted_risk raw_risk
  have hmult : (0:ℝ) < ((cvd_ethnicity_multiplier f.ethnicity f.sex : ℚ) : ℝ) := by
    exact_mod_cast cvd_ethnicity_multiplier_pos f.ethnicity f.sex
  have hs := risk_of_score_strict_mono f.sex _ _ (total_score_lt f)
  exact mul_lt_mul_of_pos_right hs hmult

lemma capped_risk_le (f : RiskFactors) :
    capped_risk {f with smoking := false} ≤ capped_risk {f with smoking := true} :=
  min_le_min (adjusted_risk_lt f).le le_rfl

lemma capped_risk_lt (f : RiskFactors)
    (h : capped_risk {f with smoking := false} < 100) :
    capped_risk {f with smoking := false} < capped_risk {f with smoking := true} := by
  have hadj : adjusted_risk {f with smoking := false} < 100 := by
    by_contra hc
    push_neg at hc
    have : capped_risk {f with smoking := false} = 100 := by
      unfold capped_risk
      exact min_eq_right hc
    rw [this] at h
    exact lt_irrefl _ h
  have heq : capped_risk {f with smoking := false}
      = adjusted_risk {f with smoking := false} := min_eq_left hadj.le
  rw [heq]
  exact lt_min (adjusted_risk_lt f) hadj

end FraminghamRiskCalculator

namespace CancerRiskCalculator

lemma risk_multiplier_smoking (f : RiskFactors) :
    risk_multiplier {f with smoking := true}
      = 2.5 * risk_multiplier {f with smoking := false} := by
  unfold risk_multiplier
  simp only [if_true, if_false, Bool.false_eq_true]
  ring

lemma pre_clamp_risk_smoking (f : RiskFactors) :
    pre_clamp_risk {f with smoking := true}
      = 2.5 * pre_clamp_risk {f with smoking := false} := by
  unfold pre_clamp_risk
  rw [risk_multiplier_smoking]
  ring

lemma ten_year_risk_smoking_le (f : RiskFactors) :
    ten_year_risk {f with smoking := false} ≤ ten_year_risk {f with smoking := true} := by
  unfold ten_year_risk
  have hp := pre_clamp_risk_pos {f with smoking := false}
  have hs : pre_clamp_risk {f with smoking := false}
      ≤ pre_clamp_risk {f with smoking := true} := by
    rw [pre_clamp_risk_smoking]
    nlinarith
  exact mul_le_mul_of_nonneg_right (min_le_min hs le_rfl)
    (cancer_ethnicity_multiplier_pos _).le

lemma ten_year_risk_smoking_lt (f : RiskFactors)
    (h : pre_clamp_risk {f with smoking := false} < 80) :
    ten_year_risk {f with smoking := false} < ten_year_risk {f with smoking := true} := by
  unfold ten_year_risk
  have hp := pre_clamp_risk_pos {f with smoking := false}
  have hlt : pre_clamp_risk {f with smoking := false}
      < pre_clamp_risk {f with smoking := true} := by
    rw [pre_clamp_risk_smoking]
    nlinarith
  have h1 : min (pre_clamp_risk {f with smoking := false}) 80
      = pre_clamp_risk {f with smoking := false} := min_eq_left h.le
  have h2 : min (pre_clamp_risk {f with smoking := false}) 80
      < min (pre_clamp_risk {f with smoking := true}) 80 := by
    rw [h1]
    exact lt_min hlt h
  exact mul_lt_mul_of_pos_right h2 (cancer_ethnicity_multiplier_pos _)

end CancerRiskCalculator

namespace ADADiabetesRiskCalculator

lemma risk_score_smoking (f : RiskFactors) :
    risk_score {f with smoking := true} = risk_score {f with smoking := false} + 1 := by
  unfold risk_score
  simp only [if_true, if_false, Bool.false_eq_true]
  ring

lemma diabetes_risk_smoking_le (f : RiskFactors) :
    ten_year_risk {f with smoking := false} ≤ ten_year_risk {f with smoking := true} := by
  unfold ten_year_risk
  rw [risk_score_smoking]
  exact score_to_percentage_mono _ _ (Nat.le_succ _) _

end ADADiabetesRiskCalculator

/-- A routine input (35-year-old female, caucasian, BMI 25, defaults
everywhere else) on which the smoking flag visibly changes the diabetes
risk. -/
def c3Factors : RiskFactors :=
  { age := 35, sex := Sex.female, ethnicity := "caucasian", bmi := 25 }

/-- C3 counterexample: the diabetes ten-year risk is not unaffected by the
smoking flag — at `c3Factors` it is 3 for a non-smoker and 5 for a smoker,
because `calculate_risk` adds one point for smoking. -/
theorem C3_diabetes_affected_counterexample :
    ADADiabetesRiskCalculator.ten_year_risk {c3Factors with smoking := true}
      ≠ ADADiabetesRiskCalculator.ten_year_risk {c3Factors with smoking := false} := by
  have he : ADADiabetesRiskCalculator.ethnicity_risk "caucasian" = 0 := by decide
  have hs1 : ADADiabetesRiskCalculator.risk_score {c3Factors with smoking := true}
      = 3 := by
    simp [ADADiabetesRiskCalculator.risk_score, he, c3Factors]
    decide
  have hs0 : ADADiabetesRiskCalculator.risk_score {c3Factors with smoking := false}
      = 2 := by
    simp [ADADiabetesRiskCalculator.risk_score, he, c3Factors]
    decide
  unfold ADADiabetesRiskCalculator.ten_year_risk
  rw [hs1, hs0]
  show ADADiabetesRiskCalculator.score_to_percentage 3 Sex.female
    ≠ ADADiabetesRiskCalculator.score_to_percentage 2 Sex.female
  simp [ADADiabetesRiskCalculator.score_to_percentage,
    ADADiabetesRiskCalculator.risk_table, min_def]
  norm_num

/-- C3 (amended): holding every other field fixed, switching the smoking
flag from false to true never decreases any of the three risks; the increase
is strict for the cardiovascular risk whenever the non-smoker's returned
(capped) risk is below 100 and strict for the cancer risk whenever the
non-smoker's pre-clamp product is below the cap 80 (at the caps both results
saturate); and the diabetes risk is not unaffected: smoking adds exactly one
point to the diabetes score, so the diabetes risk weakly increases. -/
theorem C3_smoking_monotonicity_amended (f : RiskFactors) :
    (FraminghamRiskCalculator.capped_risk {f with smoking := false}
      ≤ FraminghamRiskCalculator.capped_risk {f with smoking := true})
    ∧ (FraminghamRiskCalculator.capped_risk {f with smoking := false} < 100 →
        FraminghamRiskCalculator.capped_risk {f with smoking := false}
          < FraminghamRiskCalculator.capped_risk {f with smoking := true})
    ∧ (ADADiabetesRiskCalculator.risk_score {f with smoking := true}
        = ADADiabetesRiskCalculator.risk_score {f with smoking := false} + 1)
    ∧ (ADADiabetesRiskCalculator.ten_year_risk {f with smoking := false}
        ≤ ADADiabetesRiskCalculator.ten_year_risk {f with smoking := true})
    ∧ (CancerRiskCalculator.ten_year_risk {f with smoking := false}
        ≤ CancerRiskCalculator.ten_year_risk {f with smoking := true})
    ∧ (CancerRiskCalculator.pre_clamp_risk {f with smoking := false} < 80 →
        CancerRiskCalculator.ten_year_risk {f with smoking := false}
          < CancerRiskCalculator.ten_year_risk {f with smoking := true}) :=
  ⟨FraminghamRiskCalculator.capped_risk_le f,
   FraminghamRiskCalculator.capped_risk_lt f,
   ADADiabetesRiskCalculator.risk_score_smoking f,
   ADADiabetesRiskCalculator.diabetes_risk_smoking_le f,
   CancerRiskCalculator.ten_year_risk_smoking_le f,
   CancerRiskCalculator.ten_year_risk_smoking_lt f⟩

/-- C3 witness: at the concrete input `c3Factors` both strictness side
conditions hold and both strict increases follow by applying the amended
theorem there. -/
theorem C3_smoking_monotonicity_witness :
    FraminghamRiskCalculator.capped_risk {c3Factors with smoking := false} < 100
    ∧ FraminghamRiskCalculator.capped_risk {c3Factors with smoking := false}
        < FraminghamRiskCalculator.capped_risk {c3Factors with smoking := true}
    ∧ CancerRiskCalculator.pre_clamp_risk {c3Factors with smoking := false} < 80
    ∧ CancerRiskCalculator.ten_year_risk {c3Factors with smoking := false}
        < CancerRiskCalculator.ten_year_risk {c3Factors with smoking := true} := by
  have hm : FraminghamRiskCalculator.cvd_ethnicity_multiplier
      ({c3Factors with smoking := false} : RiskFactors).ethnicity
      ({c3Factors with smoking := false} : RiskFactors).sex = 1 := by
    unfold FraminghamRiskCalculator.cvd_ethnicity_multiplier
    rw [if_neg (by decide), if_neg (by decide), if_neg (by decide), if_neg (by decide),
      if_pos (by decide)]
    norm_num
  have h100 : FraminghamRiskCalculator.capped_risk {c3Factors with smoking := false}
      < 100 := by
    have hadj : FraminghamRiskCalculator.adjusted_risk
        {c3Factors with smoking := false} < 100 := by
      unfold FraminghamRiskCalculator.adjusted_risk FraminghamRiskCalculator.raw_risk
      rw [hm]
      simpa using FraminghamRiskCalculator.risk_of_score_lt_100 _ _
    exact lt_of_le_of_lt (min_le_left _ _) hadj
  have h80 : CancerRiskCalculator.pre_clamp_risk {c3Factors with smoking := false}
      < 80 := by
    have e1 : ¬ ("moderate" : String) = "heavy" := by decide
    have e2 : ¬ ("moderate" : String) = "none" := by decide
    simp [CancerRiskCalculator.pre_clamp_risk, CancerRiskCalculator.base_cancer_risk,
      CancerRiskCalculator.risk_multiplier, c3Factors, e1, e2]
    norm_num
  exact ⟨h100, (C3_smoking_monotonicity_amended c3Factors).2.1 h100, h80,
    (C3_smoking_monotonicity_amended c3Factors).2.2.2.2.2 h80⟩

namespace MedicalAlgorithmFramework

lemma health_score_primary_ge (results : List RiskResult) (f : RiskFactors)
    (life_adj : ℝ) : 15 ≤ health_score_primary results f life_adj :=
  le_max_left _ _

lemma health_score_primary_le (results : List RiskResult) (f : RiskFactors)
    (life_adj : ℝ) : health_score_primary results f life_adj ≤ 95 :=
  max_le (by norm_num) (min_le_left _ _)

end MedicalAlgorithmFramework

/-- C5: for every list of disease results, every factors record and every
life-expectancy lifestyle adjustment, the composite health score is an
integer in [15, 95]; it never exceeds the primary-clamped score (the
secondary cap can only lower it); and counting the diseases whose ten-year
risk exceeds 20, the final score is at most 45 when that count is at least
2 and at most 65 when the count is exactly 1. -/
theorem C5_health_score_bounds (results : List RiskResult) (f : RiskFactors)
    (life_adj : ℝ) :
    15 ≤ MedicalAlgorithmFramework.calculate_health_score results f life_adj
    ∧ MedicalAlgorithmFramework.calculate_health_score results f life_adj ≤ 95
    ∧ MedicalAlgorithmFramework.calculate_health_score results f life_adj
        ≤ MedicalAlgorithmFramework.health_score_primary results f life_adj
    ∧ (2 ≤ MedicalAlgorithmFramework.high_risk_count results →
        MedicalAlgorithmFramework.calculate_health_score results f life_adj ≤ 45)
    ∧ (MedicalAlgorithmFramework.high_risk_count results = 1 →
        MedicalAlgorithmFramework.calculate_health_score results f life_adj ≤ 65) := by
  have h15 := MedicalAlgorithmFramework.health_score_primary_ge results f life_adj
  have h95 := MedicalAlgorithmFramework.health_score_primary_le results f life_adj
  unfold MedicalAlgorithmFramework.calculate_health_score
  split_ifs with h1 h2
  · exact ⟨le_min h15 (by norm_num), (min_le_left _ _).trans h95, min_le_left _ _,
      fun _ => min_le_right _ _, fun hc => by omega⟩
  · exact ⟨le_min h15 (by norm_num), (min_le_left _ _).trans h95, min_le_left _ _,
      fun hc => absurd hc h1, fun _ => min_le_right _ _⟩
  · exact ⟨h15, h95, le_rfl, fun hc => absurd hc h1, fun hc => absurd hc h2⟩

/-- C9: the normalizer's smoking flag is true exactly when the lower-cased
tobacco-use string is one of "yes", "current", "daily", "occasionally"; a
missing field, "former" or "quit" all yield false, so a former smoker is
treated as a non-smoker; and in the composite scorer a non-smoker's raw
score is exactly 30 points above the smoker's on otherwise identical inputs
(+5 non-smoker bonus instead of the -25 smoking penalty). -/
theorem C9_smoking_normalization :
    (∀ s : String, MedicalAlgorithmFramework.smoking_flag (some (PyVal.vstr s))
        = some (decide (strLower s ∈ ["yes", "current", "daily", "occasionally"])))
    ∧ MedicalAlgorithmFramework.smoking_flag none = some false
    ∧ MedicalAlgorithmFramework.smoking_flag (some (PyVal.vstr "former")) = some false
    ∧ MedicalAlgorithmFramework.smoking_flag (some (PyVal.vstr "quit")) = some false
    ∧ (∀ (results : List RiskResult) (f : RiskFactors) (life_adj : ℝ),
        MedicalAlgorithmFramework.health_score_raw results {f with smoking := false}
            life_adj
          = MedicalAlgorithmFramework.health_score_raw results {f with smoking := true}
              life_adj + 30) := by
  refine ⟨fun s => rfl, rfl, by decide, by decide, fun results f life_adj => ?_⟩
  unfold MedicalAlgorithmFramework.health_score_raw
  simp only [if_true, if_false, Bool.false_eq_true]
  ring

namespace MedicalAlgorithmFramework

/-- Replace the timestamped field, to compare assessments up to it. -/
def set_assessment_date (a : Assessment) (d : String) : Assessment :=
  { a with assessment_date := d }

end MedicalAlgorithmFramework

/-- C7: the orchestrator is deterministic: its output is a pure function of
the input record and the single clock read that fills `assessment_date` —
two runs on identical input agree on every field once that explicitly
timestamped field is set aside, and one raises exactly when the other
does. -/
theorem C7_assessment_deterministic (ud : UserData) (t1 t2 : String) :
    (MedicalAlgorithmFramework.comprehensive_risk_assessment ud t1).map
        (fun a => MedicalAlgorithmFramework.set_assessment_date a "")
      = (MedicalAlgorithmFramework.comprehensive_risk_assessment ud t2).map
        (fun a => MedicalAlgorithmFramework.set_assessment_date a "")
    ∧ (MedicalAlgorithmFramework.comprehensive_risk_assessment ud t1).isSome
      = (MedicalAlgorithmFramework.comprehensive_risk_assessment ud t2).isSome := by
  cases h : MedicalAlgorithmFramework.convert_to_risk_factors ud with
  | none =>
    constructor <;>
      simp [MedicalAlgorithmFramework.comprehensive_risk_assessment, h]
  | some fct =>
    constructor <;>
      simp [MedicalAlgorithmFramework.comprehensive_risk_assessment, h,
        MedicalAlgorithmFramework.set_assessment_date]

namespace MedicalAlgorithmFramework

/-- Field shape: absent or a string (the fields the normalizer lower-cases). -/
def isStrOpt : Option PyVal → Bool
  | none => true
  | some (.vstr _) => true
  | _ => false

/-- Field shape: absent, one string, or a list of strings (history fields). -/
def isListOpt : Option PyVal → Bool
  | none => true
  | some (.vstr _) => true
  | some (.vlist xs) => xs.all (fun v => match v with | .vstr _ => true | _ => false)
  | _ => false

/-- Field shape: absent or `int(...)`-convertible (the age field). -/
def isIntOpt : Option PyVal → Bool
  | none => true
  | some v => (pyInt v).isSome

/-- Field shape: absent, `None` or numeric (the pass-through lab fields). -/
def isNumOpt : Option PyVal → Bool
  | none => true
  | some .vnone => true
  | some (.vint _) => true
  | some (.vfloat _) => true
  | _ => false

/-- Field shape: absent or a string lowering to `male`/`female`. -/
def isSexOpt : Option PyVal → Bool
  | none => true
  | some (.vstr s) => strLower s == "male" || strLower s == "female"
  | _ => false

/-- The height/weight pair is benign: either one of them is absent or falsy
(so BMI defaults), or both parse as numbers and the height is nonzero. -/
def bmiFieldsOk (ud : UserData) : Bool :=
  if optTruthy (lookupKey ud "height_cm") && optTruthy (lookupKey ud "weight_kg") then
    match lookupKey ud "height_cm" with
    | some hv =>
      match lookupKey ud "weight_kg" with
      | some wv =>
        match pyFloat hv with
        | some h =>
          match pyFloat wv with
          | some w => !((h / 100) ^ 2 == 0)
          | none => false
        | none => false
      | none => false
    | none => false
  else true

/-- Inputs on which the normalizer cannot raise: every field has the shape
its conversion expects. -/
def wellFormedInput (ud : UserData) : Bool :=
  bmiFieldsOk ud
  && isStrOpt (lookupKey ud "tobacco_use")
  && isStrOpt (lookupKey ud "exercise_frequency")
  && isStrOpt (lookupKey ud "alcohol_consumption")
  && isListOpt (lookupKey ud "family_history")
  && isListOpt (lookupKey ud "past_diagnoses")
  && isIntOpt (lookupKey ud "age")
  && isSexOpt (lookupKey ud "sex")
  && isStrOpt (lookupKey ud "ethnicity")
  && isNumOpt (lookupKey ud "systolic_bp")
  && isNumOpt (lookupKey ud "total_cholesterol")
  && isNumOpt (lookupKey ud "hdl_cholesterol")

lemma smoking_flag_ok (o : Option PyVal) (h : isStrOpt o = true) :
    ∃ b, smoking_flag o = some b := by
  rcases o with _ | v
  · exact ⟨false, rfl⟩
  · cases v <;> simp_all [isStrOpt, smoking_flag]

lemma exercise_of_ok (o : Option PyVal) (h : isStrOpt o = true) :
    ∃ s, exercise_of o = some s := by
  rcases o with _ | v
  · exact ⟨"moderate", rfl⟩
  · cases v <;> simp_all [isStrOpt, exercise_of]

lemma alcohol_of_ok (o : Option PyVal) (h : isStrOpt o = true) :
    ∃ s, alcohol_of o = some s := by
  rcases o with _ | v
  · exact ⟨"moderate", rfl⟩
  · cases v <;> simp_all [isStrOpt, alcohol_of]

lemma ethnicity_of_ok (o : Option PyVal) (h : isStrOpt o = true) :
    ∃ s, ethnicity_of o = some s := by
  rcases o with _ | v
  · exact ⟨"caucasian", rfl⟩
  · cases v <;> simp_all [isStrOpt, ethnicity_of]

lemma strItems_ok (xs : List PyVal)
    (h : xs.all (fun v => match v with | .vstr _ => true | _ => false) = true) :
    ∃ l, history_list.strItems xs = some l := by
  induction xs with
  | nil => exact ⟨[], rfl⟩
  | cons v t ih =>
    simp only [List.all_cons, Bool.and_eq_true] at h
    obtain ⟨hv, ht⟩ := h
    obtain ⟨l, hl⟩ := ih ht
    cases v <;> simp_all [history_list.strItems]

lemma history_list_ok (o : Option PyVal) (h : isListOpt o = true) :
    ∃ l, history_list o = some l := by
  rcases o with _ | v
  · exact ⟨[], rfl⟩
  · cases v with
    | vstr s => exact ⟨[s], rfl⟩
    | vlist xs =>
      simp only [isListOpt] at h
      exact strItems_ok xs h
    | vint n => simp [isListOpt] at h
    | vfloat q => simp [isListOpt] at h
    | vnone => simp [isListOpt] at h

lemma age_of_ok (o : Option PyVal) (h : isIntOpt o = true) :
    ∃ n, age_of o = some n := by
  rcases o with _ | v
  · exact ⟨35, rfl⟩
  · simp only [isIntOpt, Option.isSome_iff_exists] at h
    obtain ⟨n, hn⟩ := h
    exact ⟨n, hn⟩

lemma sex_of_ok (o : Option PyVal) (h : isSexOpt o = true) :
    ∃ s, sex_of o = some s := by
  rcases o with _ | v
  · exact ⟨Sex.male, rfl⟩
  · cases v with
    | vstr s =>
      simp only [isSexOpt, Bool.or_eq_true, beq_iff_eq] at h
      rcases h with h | h <;> simp [sex_of, h]
    | vint n => simp [isSexOpt] at h
    | vfloat q => simp [isSexOpt] at h
    | vlist xs => simp [isSexOpt] at h
    | vnone => simp [isSexOpt] at h

lemma opt_num_of_ok (o : Option PyVal) (h : isNumOpt o = true) :
    ∃ q, opt_num_of o = some q := by
  rcases o with _ | v
  · exact ⟨none, rfl⟩
  · cases v <;> simp_all [isNumOpt, opt_num_of]

lemma bmi_of_ok (ud : UserData) (h : bmiFieldsOk ud = true) :
    ∃ q, bmi_of ud = some q := by
  unfold bmiFieldsOk at h
  unfold bmi_of
  by_cases hc : (optTruthy (lookupKey ud "height_cm")
      && optTruthy (lookupKey ud "weight_kg")) = true
  · rw [if_pos hc] at h ⊢
    rcases h1 : lookupKey ud "height_cm" with _ | hv
    · rw [h1] at h
      simp at h
    · rw [h1] at h
      dsimp only at h ⊢
      rcases h2 : lookupKey ud "weight_kg" with _ | wv
      · rw [h2] at h
        simp at h
      · rw [h2] at h
        dsimp only at h ⊢
        rcases h3 : pyFloat hv with _ | hq
        · rw [h3] at h
          simp at h
        · rw [h3] at h
          dsimp only at h ⊢
          rcases h4 : pyFloat wv with _ | wq
          · rw [h4] at h
            simp at h
          · rw [h4] at h
            dsimp only at h ⊢
            have h' : ¬ ((hq / 100) ^ 2 = 0) := by simpa using h
            exact ⟨_, by rw [if_neg h']⟩
  · rw [if_neg hc] at h ⊢
    exact ⟨25, rfl⟩

end MedicalAlgorithmFramework

/-- Raw input with a height of "0": the string is truthy, `float("0")`
parses to zero and the BMI division raises. -/
def c2FailingData : UserData :=
  [("height_cm", PyVal.vstr "0"), ("weight_kg", PyVal.vint 70)]

/-- C2 counterexample: on a mapping whose height field is the string "0"
the normalizer does not return a populated `RiskFactors` — the BMI
computation divides by zero and the conversion raises instead of defaulting
BMI to 25. -/
theorem C2_normalizer_raises_counterexample :
    (MedicalAlgorithmFramework.convert_to_risk_factors c2FailingData).isSome
      = false := by
  have h : pyFloat (PyVal.vstr "0") = some 0 := by decide
  have h2 : pyFloat (PyVal.vint 70) = some 70 := by decide
  have h3 : "0".isEmpty = false := by decide
  have hb : MedicalAlgorithmFramework.bmi_of c2FailingData = none := by
    simp [MedicalAlgorithmFramework.bmi_of, lookupKey, c2FailingData, optTruthy,
      pyTruthy, h, h2, h3]
  simp only [MedicalAlgorithmFramework.convert_to_risk_factors]
  rw [hb]
  rfl

/-- C2 (amended): on every raw mapping whose fields have the shapes the
conversions expect — numeric fields numeric or absent, string fields
strings or absent, history fields lists of strings, and a truthy
height/weight pair that parses with nonzero height — the normalizer returns
a fully populated `RiskFactors` using the documented defaults, and BMI
defaults to 25.0 whenever height or weight is absent or falsy.  (As stated
the original claim is false: a non-numeric age/height/weight string, the
height string "0", or a non-string in a string field makes the normalizer
raise.) -/
theorem C2_normalizer_amended (ud : UserData)
    (h : MedicalAlgorithmFramework.wellFormedInput ud = true) :
    (∃ rf, MedicalAlgorithmFramework.convert_to_risk_factors ud = some rf)
    ∧ ((optTruthy (lookupKey ud "height_cm")
          && optTruthy (lookupKey ud "weight_kg")) = false →
        MedicalAlgorithmFramework.bmi_of ud = some 25) := by
  simp only [MedicalAlgorithmFramework.wellFormedInput, Bool.and_eq_true] at h
  obtain ⟨⟨⟨⟨⟨⟨⟨⟨⟨⟨⟨hbmi, htob⟩, hex⟩, hal⟩, hfam⟩, hpast⟩, hage⟩, hsex⟩, heth⟩,
    hbp⟩, htc⟩, hhdl⟩ := h
  obtain ⟨b, hb⟩ := MedicalAlgorithmFramework.bmi_of_ok ud hbmi
  obtain ⟨sm, hsm⟩ := MedicalAlgorithmFramework.smoking_flag_ok _ htob
  obtain ⟨ex, hexv⟩ := MedicalAlgorithmFramework.exercise_of_ok _ hex
  obtain ⟨al, halv⟩ := MedicalAlgorithmFramework.alcohol_of_ok _ hal
  obtain ⟨fam, hfamv⟩ := MedicalAlgorithmFramework.history_list_ok _ hfam
  obtain ⟨past, hpastv⟩ := MedicalAlgorithmFramework.history_list_ok _ hpast
  obtain ⟨age, hagev⟩ := MedicalAlgorithmFramework.age_of_ok _ hage
  obtain ⟨sx, hsxv⟩ := MedicalAlgorithmFramework.sex_of_ok _ hsex
  obtain ⟨eth, hethv⟩ := MedicalAlgorithmFramework.ethnicity_of_ok _ heth
  obtain ⟨bp, hbpv⟩ := MedicalAlgorithmFramework.opt_num_of_ok _ hbp
  obtain ⟨tc, htcv⟩ := MedicalAlgorithmFramework.opt_num_of_ok _ htc
  obtain ⟨hd, hhdv⟩ := MedicalAlgorithmFramework.opt_num_of_ok _ hhdl
  constructor
  · have hconv : MedicalAlgorithmFramework.convert_to_risk_factors ud = some
        { age := age, sex := sx, ethnicity := eth, bmi := b, systolic_bp := bp,
          total_cholesterol := tc, hdl_cholesterol := hd, smoking := sm,
          diabetes := MedicalAlgorithmFramework.diabetes_flag past,
          family_history_cvd := MedicalAlgorithmFramework.family_cvd_flag fam,
          family_history_diabetes := MedicalAlgorithmFramework.diabetes_flag fam,
          family_history_cancer := MedicalAlgorithmFramework.cancer_flag fam,
          exercise_frequency := ex, alcohol_consumption := al } := by
      simp only [MedicalAlgorithmFramework.convert_to_risk_factors]
      rw [hb, hsm, hexv, halv, hfamv, hpastv, hagev, hsxv, hethv, hbpv, htcv, hhdv]
      rfl
    exact ⟨_, hconv⟩
  · intro hcond
    unfold MedicalAlgorithmFramework.bmi_of
    rw [if_neg (by simp [hcond])]

/-- A small well-formed raw mapping: an integer age and the tobacco answer
"former", no height or weight. -/
def c2WitnessData : UserData :=
  [("age", PyVal.vint 40), ("tobacco_use", PyVal.vstr "former")]

/-- C2 witness: the concrete mapping `c2WitnessData` is well formed, and
applying the amended theorem there yields a populated `RiskFactors` with the
default BMI of 25 (height and weight are absent). -/
theorem C2_normalizer_amended_witness :
    MedicalAlgorithmFramework.wellFormedInput c2WitnessData = true
    ∧ ((∃ rf, MedicalAlgorithmFramework.convert_to_risk_factors c2WitnessData
          = some rf)
      ∧ ((optTruthy (lookupKey c2WitnessData "height_cm")
            && optTruthy (lookupKey c2WitnessData "weight_kg")) = false →
          MedicalAlgorithmFramework.bmi_of c2WitnessData = some 25)) :=
  ⟨by decide, C2_normalizer_amended c2WitnessData (by decide)⟩

/-! ## Lemmas for the merged recommendation list -/

lemma dedupAcc_nodup (l : List String) : ∀ acc : List String, acc.Nodup →
    (dedupAcc acc l).Nodup := by
  induction l with
  | nil => intro acc h; exact h
  | cons r t ih =>
    intro acc h
    unfold dedupAcc
    split_ifs with hm
    · exact ih acc h
    · refine ih (acc ++ [r]) ?_
      simp [List.nodup_append, h, hm]

lemma dedupAcc_head (l : List String) : ∀ acc : List String, acc ≠ [] →
    (dedupAcc acc l).head? = acc.head? := by
  induction l with
  | nil => intro acc h; rfl
  | cons r t ih =>
    intro acc h
    unfold dedupAcc
    split_ifs with hm
    · exact ih acc h
    · rw [ih (acc ++ [r]) (by simp)]
      rcases acc with _ | ⟨a, t'⟩
      · exact absurd rfl h
      · rfl

lemma dedupSeq_nodup (l : List String) : (dedupSeq l).Nodup :=
  dedupAcc_nodup l [] List.nodup_nil

lemma dedupSeq_head (a : String) (t : List String) :
    (dedupSeq (a :: t)).head? = some a := by
  unfold dedupSeq dedupAcc
  rw [if_neg (by simp)]
  rw [dedupAcc_head t ([] ++ [a]) (by simp)]
  rfl

lemma isPre_append (p : List Char) : ∀ a r : List Char, isPre p a = true →
    isPre p (a ++ r) = true := by
  induction p with
  | nil => intro a r h; rfl
  | cons x xs ih =>
    intro a r h
    rcases a with _ | ⟨y, ys⟩
    · exact absurd h (by simp [isPre])
    · simp only [isPre, Bool.and_eq_true, beq_iff_eq] at h
      simp only [List.cons_append, isPre, Bool.and_eq_true, beq_iff_eq]
      exact ⟨h.1, ih ys r h.2⟩

lemma subLst_of_isPre (p b : List Char) (h : isPre p b = true) : subLst p b = true := by
  rcases b with _ | ⟨x, xs⟩
  · rcases p with _ | ⟨y, ys⟩
    · rfl
    · exact absurd h (by simp [isPre])
  · simp only [subLst, Bool.or_eq_true]
    exact Or.inl h

lemma subLst_append_left (p : List Char) : ∀ a r : List Char, subLst p r = true →
    subLst p (a ++ r) = true := by
  intro a
  induction a with
  | nil => intro r h; simpa using h
  | cons x xs ih =>
    intro r h
    simp only [List.cons_append, subLst, Bool.or_eq_true]
    exact Or.inr (ih r h)

lemma joinData_mem_decomp (x : String) : ∀ l : List String, x ∈ l →
    ∃ pre post : List Char, joinData l = pre ++ (x.data ++ post) := by
  intro l
  induction l with
  | nil => intro h; exact absurd h (List.not_mem_nil x)
  | cons a t ih =>
    intro h
    rcases List.mem_cons.mp h with rfl | hmem
    · rcases t with _ | ⟨b, t'⟩
      · exact ⟨[quoteChar], [quoteChar], by simp [joinData, quoteData]⟩
      · refine ⟨[quoteChar], [quoteChar] ++ (',' :: ' ' :: joinData (b :: t')), ?_⟩
        simp [joinData, quoteData]
    · rcases t with _ | ⟨b, t'⟩
      · exact absurd hmem (List.not_mem_nil x)
      · obtain ⟨pre, post, hd⟩ := ih hmem
        refine ⟨quoteData a ++ (',' :: ' ' :: pre), post, ?_⟩
        simp [joinData, hd]

lemma mem_pyStr_subLst (x : String) (l : List String) (pat : List Char)
    (hmem : x ∈ l) (hpre : isPre pat x.data = true) :
    subLst pat (pyStrData l) = true := by
  obtain ⟨pre, post, hd⟩ := joinData_mem_decomp x l hmem
  unfold pyStrData
  rw [hd]
  have : ('[' :: (pre ++ (x.data ++ post) ++ [']']))
      = ('[' :: pre) ++ (x.data ++ (post ++ [']'])) := by
    simp
  rw [this]
  exact subLst_append_left pat _ _
    (subLst_of_isPre _ _ (isPre_append pat x.data (post ++ [']']) hpre))

lemma head?_append_single (l : List String) (x : String) (h : l ≠ []) :
    (l ++ [x]).head? = l.head? := by
  rcases l with _ | ⟨a, t⟩
  · exact absurd rfl h
  · rfl

lemma nodup_append_single (l : List String) (x : String) (h : l.Nodup)
    (hx : x ∉ l) : (l ++ [x]).Nodup := by
  simp [List.nodup_append, h, hx]

lemma head?_take (l : List String) : (l.take 10).head? = l.head? := by
  rcases l with _ | ⟨a, t⟩
  · rfl
  · rfl

namespace MedicalAlgorithmFramework

lemma insert_quit_nodup (f : RiskFactors) (l : List String) (h : l.Nodup) :
    (insert_quit f l).Nodup := by
  unfold insert_quit
  split_ifs with hg
  · simp only [Bool.and_eq_true, Bool.not_eq_eq_eq_not, Bool.not_true] at hg
    refine List.nodup_cons.mpr ⟨?_, h⟩
    intro hmem
    have hs := mem_pyStr_subLst quit_comprehensive l quit_phrase.data hmem (by decide)
    rw [hg.2] at hs
    exact absurd hs (by simp)
  · exact h

lemma insert_quit_ne (f : RiskFactors) (l : List String) (h : l ≠ []) :
    insert_quit f l ≠ [] := by
  unfold insert_quit
  split_ifs
  · simp
  · exact h

lemma append_weight_nodup (f : RiskFactors) (l : List String) (h : l.Nodup) :
    (append_weight f l).Nodup := by
  unfold append_weight
  split_ifs with h1 h2
  · exact h
  · exact nodup_append_single l _ h h2
  · exact h

lemma append_weight_head (f : RiskFactors) (l : List String) (h : l ≠ []) :
    (append_weight f l).head? = l.head? := by
  unfold append_weight
  split_ifs
  · rfl
  · exact head?_append_single l _ h
  · rfl

lemma append_weight_ne (f : RiskFactors) (l : List String) (h : l ≠ []) :
    append_weight f l ≠ [] := by
  unfold append_weight
  split_ifs
  · exact h
  · simp [h]
  · exact h

lemma append_exercise_nodup (f : RiskFactors) (l : List String) (h : l.Nodup) :
    (append_exercise f l).Nodup := by
  unfold append_exercise
  split_ifs with h1 h2
  · exact h
  · exact nodup_append_single l _ h h2
  · exact h

lemma append_exercise_head (f : RiskFactors) (l : List String) (h : l ≠ []) :
    (append_exercise f l).head? = l.head? := by
  unfold append_exercise
  split_ifs
  · rfl
  · exact head?_append_single l _ h
  · rfl

end MedicalAlgorithmFramework

namespace FraminghamRiskCalculator

lemma generate_recommendations_head (f : RiskFactors) (risk : ℝ)
    (kf : List String) (hsm : f.smoking = true) :
    (generate_recommendations f risk kf).head?
      = some "Quit smoking - reduces CVD risk by 50% within 1 year" := by
  unfold generate_recommendations
  rw [if_pos hsm]
  rfl

end FraminghamRiskCalculator

lemma exists_cons_of_head_eq {α : Type} {l : List α} {a : α}
    (h : l.head? = some a) : ∃ t, l = a :: t := by
  rcases l with _ | ⟨x, t⟩
  · simp at h
  · simp only [List.head?_cons, Option.some.injEq] at h
    exact ⟨t, by rw [h]⟩

/-- The recommendation list the orchestrator returns for a given
`RiskFactors`: the merged list over the three calculators' results, exactly
as `comprehensive_risk_assessment` builds it. -/
noncomputable def assessment_recommendations (f : RiskFactors) : List String :=
  MedicalAlgorithmFramework.generate_comprehensive_recommendations
    [FraminghamRiskCalculator.calculate_risk f,
     ADADiabetesRiskCalculator.calculate_risk f,
     CancerRiskCalculator.calculate_risk f] f

/-- C6: for every input the orchestrator's merged comprehensive
recommendation list has length at most 10 and no duplicate strings, and
whenever the smoking flag is true the entry at index 0 is the
smoking-cessation recommendation (the cardiovascular calculator's quit
entry, which always heads a smoker's heart-disease list). -/
theorem C6_recommendations_properties (f : RiskFactors) :
    (assessment_recommendations f).length ≤ 10
    ∧ (assessment_recommendations f).Nodup
    ∧ ((assessment_recommendations f).head?
        = some "Quit smoking - reduces CVD risk by 50% within 1 year"
      ∨ f.smoking = false) := by
  unfold assessment_recommendations
    MedicalAlgorithmFramework.generate_comprehensive_recommendations
  refine ⟨List.length_take_le _ _, ?_, ?_⟩
  · exact (MedicalAlgorithmFramework.append_exercise_nodup _ _
      (MedicalAlgorithmFramework.append_weight_nodup _ _
        (MedicalAlgorithmFramework.insert_quit_nodup _ _
          (dedupSeq_nodup _)))).sublist (List.take_sublist _ _)
  · by_cases hsm : f.smoking = true
    · left
      have hh := FraminghamRiskCalculator.generate_recommendations_head f
        (FraminghamRiskCalculator.adjusted_risk f)
        (FraminghamRiskCalculator.identify_key_factors f
          (FraminghamRiskCalculator.resolved_chol f)
          (FraminghamRiskCalculator.resolved_hdl f)
          (FraminghamRiskCalculator.resolved_bp f)) hsm
      obtain ⟨t1, ht1⟩ := exists_cons_of_head_eq hh
      have hflat : ([FraminghamRiskCalculator.calculate_risk f,
          ADADiabetesRiskCalculator.calculate_risk f,
          CancerRiskCalculator.calculate_risk f].flatMap
            (fun r => r.recommendations))
          = "Quit smoking - reduces CVD risk by 50% within 1 year"
            :: (t1 ++ ((ADADiabetesRiskCalculator.calculate_risk f).recommendations
              ++ ((CancerRiskCalculator.calculate_risk f).recommendations ++ []))) := by
        simp only [List.flatMap_cons, List.flatMap_nil]
        rw [show (FraminghamRiskCalculator.calculate_risk f).recommendations
          = FraminghamRiskCalculator.generate_recommendations f
              (FraminghamRiskCalculator.adjusted_risk f)
              (FraminghamRiskCalculator.identify_key_factors f
                (FraminghamRiskCalculator.resolved_chol f)
                (FraminghamRiskCalculator.resolved_hdl f)
                (FraminghamRiskCalculator.resolved_bp f)) from rfl]
        rw [ht1]
        simp
      have hl0 : MedicalAlgorithmFramework.merge_dedup
          [FraminghamRiskCalculator.calculate_risk f,
           ADADiabetesRiskCalculator.calculate_risk f,
           CancerRiskCalculator.calculate_risk f]
          = dedupSeq ("Quit smoking - reduces CVD risk by 50% within 1 year"
            :: (t1 ++ ((ADADiabetesRiskCalculator.calculate_risk f).recommendations
              ++ ((CancerRiskCalculator.calculate_risk f).recommendations ++ [])))) := by
        unfold MedicalAlgorithmFramework.merge_dedup
        rw [hflat]
      obtain ⟨t0, ht0⟩ := exists_cons_of_head_eq
        (hl0 ▸ dedupSeq_head "Quit smoking - reduces CVD risk by 50% within 1 year" _)
      have hq : MedicalAlgorithmFramework.insert_quit f
          (MedicalAlgorithmFramework.merge_dedup
            [FraminghamRiskCalculator.calculate_risk f,
             ADADiabetesRiskCalculator.calculate_risk f,
             CancerRiskCalculator.calculate_risk f])
          = MedicalAlgorithmFramework.merge_dedup
            [FraminghamRiskCalculator.calculate_risk f,
             ADADiabetesRiskCalculator.calculate_risk f,
             CancerRiskCalculator.calculate_risk f] := by
        unfold MedicalAlgorithmFramework.insert_quit
        rw [if_neg]
        have hsub : subLst MedicalAlgorithmFramework.quit_phrase.data
            (pyStrData (MedicalAlgorithmFramework.merge_dedup
              [FraminghamRiskCalculator.calculate_risk f,
               ADADiabetesRiskCalculator.calculate_risk f,
               CancerRiskCalculator.calculate_risk f])) = true := by
          apply mem_pyStr_subLst
            "Quit smoking - reduces CVD risk by 50% within 1 year"
          · rw [ht0]
            exact List.mem_cons_self _ _
          · decide
        simp [hsub]
      rw [hq]
      rw [head?_take]
      rw [MedicalAlgorithmFramework.append_exercise_head _ _
        (MedicalAlgorithmFramework.append_weight_ne _ _ (by rw [ht0]; simp))]
      rw [MedicalAlgorithmFramework.append_weight_head _ _ (by rw [ht0]; simp)]
      rw [ht0]
      rfl
    · right
      simpa using hsm
